import Mathlib

/-!
Verification of the order-lifecycle / bracket / OCO logic of the
Backtrader-MQL5-API repository (`backtradermql5/mt5broker.py` and the parts of
`backtradermql5/mt5store.py` it drives).

The broker keeps Python dicts (`orders`, `brackets`, `opending`, `_ocos`,
`_ocol`, `positions`), which we model as association lists with unique keys
(`alookup` / `ainsert` / `aerase`).  Iteration order of the dicts is never
observed by the modelled code, so an insert may re-append at the end.

Sizes and prices are Python floats used only with `+ - * /` and comparisons;
we model them as rationals (`ℚ`).  Order objects are mutable and shared
between `orders` and the bracket lists; we therefore store plain refs (`Nat`)
inside `brackets` and `_ocol`, with the registry `orders` as the single point
of truth, mirroring the aliasing of the Python objects.

Methods of the `backtrader` library itself (class `Order`, `Position`) are an
external dependency of the repository; they are modelled from that library's
documented semantics (status constants, `alive`, `submit`, `cancel`,
`execute`/`OrderData.add`, `Position.update`) and each such definition says so
in its doc comment.
-/

namespace MT5

/-- Lookup in an association list (Python `d.get(k)` / `d[k]`). -/
def alookup {κ α : Type} [DecidableEq κ] : List (κ × α) → κ → Option α
  | [], _ => none
  | p :: l, k => if p.1 = k then some p.2 else alookup l k

/-- Remove every binding of key `k` (on unique-key lists: Python `d.pop(k)`). -/
def aerase {κ α : Type} [DecidableEq κ] : List (κ × α) → κ → List (κ × α)
  | [], _ => []
  | p :: l, k => if p.1 = k then aerase l k else p :: aerase l k

/-- Python `d[k] = v`: replace the binding of `k`, or add one. -/
def ainsert {κ α : Type} [DecidableEq κ] (l : List (κ × α)) (k : κ) (v : α) :
    List (κ × α) :=
  aerase l k ++ [(k, v)]

/-- Python `collections.defaultdict(list)`: `d[k].append v`. -/
def alappend {κ α : Type} [DecidableEq κ] (l : List (κ × (List α))) (k : κ)
    (v : α) : List (κ × (List α)) :=
  ainsert l k (((alookup l k).getD []) ++ [v])

@[simp] theorem alookup_nil {κ α : Type} [DecidableEq κ] (k : κ) :
    alookup ([] : List (κ × α)) k = none := rfl

@[simp] theorem alookup_cons {κ α : Type} [DecidableEq κ] (p : κ × α)
    (l : List (κ × α)) (k : κ) :
    alookup (p :: l) k = if p.1 = k then some p.2 else alookup l k := rfl

theorem alookup_append {κ α : Type} [DecidableEq κ] (l₁ l₂ : List (κ × α))
    (k : κ) :
    alookup (l₁ ++ l₂) k =
      match alookup l₁ k with
      | some v => some v
      | none => alookup l₂ k := by
  induction l₁ with
  | nil => simp
  | cons p l ih =>
    by_cases h : p.1 = k <;> simp [alookup, h, ih]

@[simp] theorem alookup_aerase_self {κ α : Type} [DecidableEq κ]
    (l : List (κ × α)) (k : κ) : alookup (aerase l k) k = none := by
  induction l with
  | nil => rfl
  | cons p l ih =>
    by_cases h : p.1 = k <;> simp [aerase, alookup, h, ih]

theorem alookup_aerase_ne {κ α : Type} [DecidableEq κ] (l : List (κ × α))
    {k k' : κ} (h : k' ≠ k) : alookup (aerase l k) k' = alookup l k' := by
  induction l with
  | nil => rfl
  | cons p l ih =>
    by_cases hp : p.1 = k
    · have hne : ¬ p.1 = k' := by
        rw [hp]; exact fun hh => h hh.symm
      rw [aerase, if_pos hp, ih, alookup, if_neg hne]
    · rw [aerase, if_neg hp, alookup, alookup]
      by_cases hp' : p.1 = k'
      · rw [if_pos hp', if_pos hp']
      · rw [if_neg hp', if_neg hp', ih]

@[simp] theorem alookup_ainsert_self {κ α : Type} [DecidableEq κ]
    (l : List (κ × α)) (k : κ) (v : α) : alookup (ainsert l k v) k = some v := by
  simp [ainsert, alookup_append, alookup]

theorem alookup_ainsert_ne {κ α : Type} [DecidableEq κ] (l : List (κ × α))
    {k k' : κ} (v : α) (h : k' ≠ k) :
    alookup (ainsert l k v) k' = alookup l k' := by
  have hk : ¬ k = k' := fun hh => h hh.symm
  simp only [ainsert, alookup_append, alookup_aerase_ne l h, alookup, if_neg hk,
    alookup_nil]
  cases alookup l k' <;> simp

theorem aerase_of_alookup_none {κ α : Type} [DecidableEq κ]
    (l : List (κ × α)) (k : κ) (h : alookup l k = none) : aerase l k = l := by
  induction l with
  | nil => rfl
  | cons p l ih =>
    by_cases hp : p.1 = k
    · simp [alookup, hp] at h
    · simp [alookup, hp] at h
      simp [aerase, hp, ih h]

/-! ## Backtrader order model (external library semantics) -/

/-- Order status values of backtrader's `Order` class (external library);
`Cancelled` is an alias of `Canceled` there.  `PartFilled` stands for
backtrader's status named Partial. -/
inductive OrdStatus
  | Created
  | Submitted
  | Accepted
  | PartFilled
  | Completed
  | Canceled
  | Expired
  | Margin
  | Rejected
deriving DecidableEq, Repr

/-- Order side, backtrader `Order.Buy` / `Order.Sell`. -/
inductive OrdType
  | Buy
  | Sell
deriving DecidableEq, Repr

/-- Execution type, backtrader `Order.Market` / `Limit` / `Stop` / `StopLimit`. -/
inductive ExecType
  | Market
  | Limit
  | Stop
  | StopLimit
deriving DecidableEq, Repr

/-- Execution bookkeeping of a backtrader order (`order.executed`, class
`OrderData`): accumulated filled size, volume-weighted fill price, remaining
size (initialised to the order size), and the last position size/price passed
to `execute`.  Commissions/values are always zero in this broker and are not
tracked. -/
structure OrderData where
  esize : ℚ := 0
  eprice : ℚ := 0
  remsize : ℚ := 0
  psize : ℚ := 0
  pprice : ℚ := 0
deriving DecidableEq, Repr

/-- A backtrader order as used by `mt5broker.py`.  `size` is signed (the
`SellOrder` constructor negates the requested size); `price` is `None` for
market orders, hence an `Option`.  `parent` and `oco` hold the ref of the
parent / OCO partner order (the Python objects are used only through their
`.ref`). -/
structure Order where
  ref : Nat
  ordtype : OrdType
  symbol : String
  size : ℚ
  price : Option ℚ
  exectype : ExecType
  parent : Option Nat := none
  oco : Option Nat := none
  transmit : Bool := true
  status : OrdStatus := .Created
  triggered : Bool := false
  executed : OrderData := {}
deriving DecidableEq, Repr

namespace Order

/-- Backtrader `Order.alive`: status in Created/Submitted/Accepted/Partial. -/
def alive (o : Order) : Bool :=
  o.status = .Created ∨ o.status = .Submitted ∨ o.status = .Accepted ∨
    o.status = .PartFilled

/-- Backtrader `Order.submit`: set status to Submitted. -/
def submit (o : Order) : Order := { o with status := .Submitted }

/-- Backtrader `Order.accept`: set status to Accepted. -/
def accept (o : Order) : Order := { o with status := .Accepted }

/-- Backtrader `Order.cancel`: set status to Canceled. -/
def cancel (o : Order) : Order := { o with status := .Canceled }

/-- Backtrader `Order.reject`: set status to Rejected. -/
def reject (o : Order) : Order := { o with status := .Rejected }

/-- Backtrader `Order.expire`: set status to Expired. -/
def expire (o : Order) : Order := { o with status := .Expired }

/-- Backtrader order status transition to Partial (method named partial). -/
def toPartFilled (o : Order) : Order := { o with status := .PartFilled }

/-- Backtrader `Order.completed`: set status to Completed. -/
def completed (o : Order) : Order := { o with status := .Completed }

/-- Backtrader `Order.activate`: mark the (pending) order as triggered. -/
def activate (o : Order) : Order := { o with triggered := true }

/-- Backtrader `Order.execute` / `OrderData.addbit`: a no-op for size 0,
otherwise accumulate the fill into `executed` (`remsize -= size`,
`size += size`, volume-weighted price) and record the position size/price.
Rational division by zero yields 0 where Python would raise; no modelled code
path reaches that case. -/
def execute (o : Order) (size price psize pprice : ℚ) : Order :=
  if size = 0 then o
  else
    let oldsize := o.executed.esize
    let newsize := oldsize + size
    { o with executed :=
        { esize := newsize
          eprice := (oldsize * o.executed.eprice + size * price) / newsize
          remsize := o.executed.remsize - size
          psize := psize
          pprice := pprice } }

@[simp] theorem activate_ref (o : Order) : o.activate.ref = o.ref := rfl

@[simp] theorem activate_parent (o : Order) : o.activate.parent = o.parent := rfl

@[simp] theorem cancel_ref (o : Order) : o.cancel.ref = o.ref := rfl

@[simp] theorem cancel_parent (o : Order) : o.cancel.parent = o.parent := rfl

@[simp] theorem cancel_status (o : Order) : o.cancel.status = .Canceled := rfl

@[simp] theorem cancel_alive (o : Order) : o.cancel.alive = false := rfl

@[simp] theorem submit_ref (o : Order) : o.submit.ref = o.ref := rfl

@[simp] theorem submit_parent (o : Order) : o.submit.parent = o.parent := rfl

@[simp] theorem submit_status (o : Order) : o.submit.status = .Submitted := rfl

@[simp] theorem completed_ref (o : Order) : o.completed.ref = o.ref := rfl

@[simp] theorem completed_alive (o : Order) : o.completed.alive = false := rfl

end Order

/-- Per-instrument position (backtrader `Position`): signed size and average
price.  A freshly defaulted position (`size = 0`) is falsy in Python. -/
structure Pos where
  size : ℚ := 0
  price : ℚ := 0
deriving DecidableEq, Repr

instance : Inhabited Pos := ⟨{}⟩

/-- Backtrader `Position.update(size, price)`: merge a signed fill into the
position and return `(new position, psize, pprice, opened, closed)` exactly as
the library computes them. -/
def Pos.update (p : Pos) (size price : ℚ) : Pos × ℚ × ℚ × ℚ × ℚ :=
  let oldsize := p.size
  let newsize := p.size + size
  if newsize = 0 then
    (⟨0, 0⟩, 0, 0, 0, size)
  else if oldsize = 0 then
    (⟨newsize, price⟩, newsize, price, size, 0)
  else if oldsize > 0 then
    if size > 0 then
      let np := (p.price * oldsize + size * price) / newsize
      (⟨newsize, np⟩, newsize, np, size, 0)
    else if newsize > 0 then
      (⟨newsize, p.price⟩, newsize, p.price, 0, size)
    else
      (⟨newsize, price⟩, newsize, price, newsize, -oldsize)
  else
    if size < 0 then
      let np := (p.price * oldsize + size * price) / newsize
      (⟨newsize, np⟩, newsize, np, size, 0)
    else if newsize < 0 then
      (⟨newsize, p.price⟩, newsize, p.price, 0, size)
    else
      (⟨newsize, price⟩, newsize, price, newsize, -oldsize)

/-! ## Store model (`mt5store.py`, the parts the broker drives) -/

/-- Payload of `MTraderStore.put_notification`.  The Python code formats a
string; we keep the carried data structured. -/
inductive StoreMsg
  | inconsistentFill (oref : Nat) (price size : ℚ)
  | text (s : String)
deriving DecidableEq, Repr

/-- The `_ORDEREXECS` table of `MTraderStore`: MetaTrader order type for an
execution type and side.  `StopLimit` entries are commented out in the source,
so the lookup fails for them. -/
def ordertypeOf : ExecType → OrdType → Option String
  | .Market, .Buy => some "ORDER_TYPE_BUY"
  | .Market, .Sell => some "ORDER_TYPE_SELL"
  | .Limit, .Buy => some "ORDER_TYPE_BUY_LIMIT"
  | .Limit, .Sell => some "ORDER_TYPE_SELL_LIMIT"
  | .Stop, .Buy => some "ORDER_TYPE_BUY_STOP"
  | .Stop, .Sell => some "ORDER_TYPE_SELL_STOP"
  | .StopLimit, _ => none

/-- One queued order-creation request (`MTraderStore.order_create` builds
`okwargs` plus the `ref=..|sl=..|tp=..|oco=..` comment and puts one tuple on
`q_ordercreate`). -/
structure CreateReq where
  oref : Nat
  actionType : String
  symbol : String
  volume : ℚ
  price : Option ℚ
  stoploss : Option ℚ
  takeprofit : Option ℚ
  cref : Nat
  csl : Option Nat
  ctp : Option Nat
  coco : Option Nat
deriving DecidableEq, Repr

/-- State of the `MTraderStore` singleton as seen by the broker: store
notifications, the two command queues (creation requests, cancellation refs),
a count of `get_balance` requests sent to the remote side, the
ref-to-remote-id maps maintained by `rebuild_order`, and the names of the
registered data feeds. -/
structure Store where
  notifs : List StoreMsg := []
  q_ordercreate : List CreateReq := []
  q_orderclose : List Nat := []
  balance_reqs : Nat := 0
  s_orders : List (Nat × Nat) := []
  s_orders_type : List (Nat × String) := []
  s_ordersrev : List (Nat × Nat) := []
  datas : List String := []
deriving DecidableEq, Repr

/-- `MTraderStore.order_create(order, stopside, takeside)`: build the request
(raising `ValueError` for an order type missing from `_ORDEREXECS`).  The
`stoploss`/`takeprofit` fields and the `sl`/`tp` comment entries are set when
the corresponding side order exists and has a price. -/
def order_create (o : Order) (stopside takeside : Option Order) :
    Except String CreateReq :=
  match ordertypeOf o.exectype o.ordtype with
  | none => .error "ValueError"
  | some otype =>
    let withPrice := fun (s : Option Order) => s.bind fun so => so.price
    .ok
      { oref := o.ref
        actionType := otype
        symbol := o.symbol
        volume := |o.size|
        price := if o.exectype ≠ .Market then o.price else none
        stoploss := withPrice stopside
        takeprofit := withPrice takeside
        cref := o.ref
        csl := (stopside.bind fun so => so.price.map fun _ => so.ref)
        ctp := (takeside.bind fun so => so.price.map fun _ => so.ref)
        coco := o.oco }

/-! ## Broker state (`MTraderBroker`) -/

/-- Mutable state of `MTraderBroker`: the order registry (`orders`), the
notification deque of order clones (`notifs`), the pending-transmission lists
(`opending`, orders not yet registered), the confirmed bracket groups
(`brackets`, refs into the registry), the OCO reverse map (`_ocos`) and member
lists (`_ocol`), the position ledger, and backtrader's order ref counter
(`Order.refbasis`, advanced on every order construction). -/
structure Broker where
  store : Store := {}
  orders : List (Nat × Order) := []
  notifs : List Order := []
  opending : List (Nat × List Order) := []
  brackets : List (Nat × List Nat) := []
  ocos : List (Nat × Nat) := []
  ocol : List (Nat × List Nat) := []
  positions : List (String × Pos) := []
  refbasis : Nat := 1
deriving DecidableEq, Repr

namespace Broker

/-- Write an order into the registry under its own ref (`self.orders[o.ref] =
o`; also how mutation of a registry-held Python object is reflected). -/
def setOrder (st : Broker) (o : Order) : Broker :=
  { st with orders := ainsert st.orders o.ref o }

/-- Apply a mutation to the registry object with ref `r`, if present (the
Python code mutates the shared object directly, which is always present in
the modelled paths). -/
def mapOrderAt (st : Broker) (r : Nat) (f : Order → Order) : Broker :=
  match alookup st.orders r with
  | some o => st.setOrder (f o)
  | none => st

/-- `MTraderBroker.notify`: append a clone of the order to the deque. -/
def notify (st : Broker) (o : Order) : Broker :=
  { st with notifs := st.notifs ++ [o] }

/-- `MTraderStore.put_notification` as the broker uses it. -/
def putStoreNotif (st : Broker) (m : StoreMsg) : Broker :=
  { st with store := { st.store with notifs := st.store.notifs ++ [m] } }

/-- `MTraderStore.get_balance` at the broker boundary: one balance-refresh
request to the remote side. -/
def reqBalance (st : Broker) : Broker :=
  { st with store := { st.store with balance_reqs := st.store.balance_reqs + 1 } }

/-- `MTraderBroker.cancel` (public): return untouched unless the ref is
registered and the order's status is not Cancelled; otherwise enqueue the ref
on the store's cancellation queue (`MTraderStore.order_cancel`). -/
def cancelPub (st : Broker) (o : Order) : Broker :=
  match alookup st.orders o.ref with
  | none => st
  | some _ =>
    if o.status = .Canceled then st
    else
      { st with store :=
          { st.store with q_orderclose := st.store.q_orderclose ++ [o.ref] } }

/-- `MTraderBroker._ocoize`: nothing without an OCO partner; otherwise, when
the partner's ref is not a key of `_ocos`, map the NEW order's ref to the
partner (`self._ocos[oref] = ocoref`) and append the partner's ref to its own
member list; in every case append the new order's ref to the partner's member
list. -/
def ocoize (st : Broker) (o : Order) : Broker :=
  match o.oco with
  | none => st
  | some ocoref =>
    let st' :=
      if (alookup st.ocos ocoref).isSome then st
      else
        { st with ocos := ainsert st.ocos o.ref ocoref,
                  ocol := alappend st.ocol ocoref ocoref }
    { st' with ocol := alappend st'.ocol ocoref o.ref }

/-- Cancellation loop of `MTraderBroker._ococheck`: publicly cancel every
listed member other than the order itself (members missing from the registry
are skipped). -/
def ocoCancelAll (st : Broker) (selfref : Nat) (l : List Nat) : Broker :=
  l.foldl
    (fun s oref =>
      match alookup s.orders oref with
      | some o2 => if o2.ref ≠ selfref then s.cancelPub o2 else s
      | none => s)
    st

/-- `MTraderBroker._ococheck`: raise for a still-alive order; otherwise pop
the canonical key (defaulting to the order's own ref), pop that key's member
list, and, when that list is present and non-empty (Python truthiness of the
popped value), cancel every other listed member via `ocoCancelAll`. -/
def ococheck (st : Broker) (o : Order) : Except String Broker :=
  if o.alive then .error "Should not be called here"
  else
    let ocoref := (alookup st.ocos o.ref).getD o.ref
    let st1 : Broker := { st with ocos := aerase st.ocos o.ref }
    let l := (alookup st1.ocol ocoref).getD []
    let st2 : Broker := { st1 with ocol := aerase st1.ocol ocoref }
    if l = [] then .ok st2
    else .ok (ocoCancelAll st2 o.ref l)

end Broker

namespace Broker

/-- Body of `MTraderBroker._cancel`, parameterised over the recursive call
used by the nested `_bracketize` (see `cancelPriv`): no-op when already
Canceled; otherwise cancel the order, notify, resolve the bracket in cancel
mode and run the OCO check.  A ref missing from the registry is Python's
`KeyError`. -/
def cancelCore (cancelF : Broker → Nat → Except String Broker) (st : Broker)
    (oref : Nat) : Except String Broker :=
  match alookup st.orders oref with
  | none => .error "KeyError"
  | some o =>
    if o.status = .Canceled then .ok st
    else
      let o' := o.cancel
      let st := (st.setOrder o').notify o'
      match bracketizeCore cancelF st o' true with
      | .error e => .error e
      | .ok st => st.ococheck o'

where
  /-- Body of `MTraderBroker._bracketize` (parameterised over `_cancel`): pop
  the group keyed by the order's parent-or-self ref (silently return when
  absent).  Not cancelling: 3 members means the parent filled — drop it,
  activate the two children and reinsert them under the same key; 2 members
  means a child filled — privately cancel the sibling (`list.index` raises
  for a non-member).  Cancelling: privately cancel every member still alive. -/
  bracketizeCore (cancelF : Broker → Nat → Except String Broker) (st : Broker)
      (o : Order) (docancel : Bool) : Except String Broker :=
    let pref := o.parent.getD o.ref
    match alookup st.brackets pref with
    | none => .ok st
    | some br =>
      let st := { st with brackets := aerase st.brackets pref }
      if docancel then
        br.foldlM
          (fun s r =>
            match alookup s.orders r with
            | some o2 => if o2.alive then cancelF s r else .ok s
            | none => .ok s)
          st
      else
        match br with
        | [_, b, c] =>
          let st := (st.mapOrderAt b Order.activate).mapOrderAt c Order.activate
          .ok { st with brackets := ainsert st.brackets pref [b, c] }
        | [a, b] =>
          if a = o.ref then cancelF st b
          else if b = o.ref then cancelF st a
          else .error "ValueError"
        | _ => .ok st

/-- `MTraderBroker._cancel`, made total with a fuel bound on the (shallow)
`_cancel`/`_bracketize` recursion. -/
def cancelPriv : Nat → Broker → Nat → Except String Broker
  | 0, _, _ => .error "fuel exhausted"
  | fuel + 1, st, oref => cancelCore (cancelPriv fuel) st oref

/-- `MTraderBroker._bracketize`, fueled. -/
def bracketize : Nat → Broker → Order → Bool → Except String Broker
  | 0, _, _, _ => .error "fuel exhausted"
  | fuel + 1, st, o, docancel => cancelCore.bracketizeCore (cancelPriv fuel) st o docancel

/-- Python negative indexing `l[-i]` (raising `IndexError` out of range). -/
def pyNegIdx {α : Type} (l : List α) (i : Nat) : Option α :=
  if i ≤ l.length then l.get? (l.length - i) else none

/-- Fill disambiguation block of `MTraderBroker._fill` for a no-longer-alive
order whose parent-or-self ref keys a bracket group: `stop_order = br[-2]`,
`limit_order = br[-1]`; a Buy referenced order attributes the fill to the
limit leg iff `price >= limit.price`, a Sell one iff `price <= limit.price`,
otherwise to the stop leg.  A missing price on the limit leg would be a
Python `TypeError` comparison. -/
def fillTarget (st : Broker) (o0 : Order) (br : List Nat) (price : ℚ) :
    Except String Order :=
  match pyNegIdx br 2, pyNegIdx br 1 with
  | some sref, some lref =>
    match alookup st.orders sref, alookup st.orders lref with
    | some stopO, some limitO =>
      match limitO.price with
      | none => .error "TypeError"
      | some lp =>
        if o0.ordtype = .Buy then
          .ok (if price ≥ lp then limitO else stopO)
        else
          .ok (if price ≤ lp then limitO else stopO)
    | _, _ => .error "KeyError"
  | _, _ => .error "IndexError"

/-- Tail of `MTraderBroker._fill` once the executing order is known: take the
order's full size when `filled`, update the position ledger, execute the
order, then either mark it Partial and notify, or mark it Completed, notify,
resolve the bracket and request a balance refresh; in both cases finish with
the OCO check on the mutated order. -/
def applyFill (fuel : Nat) (st : Broker) (o : Order) (size price : ℚ)
    (filled : Bool) : Except String Broker :=
  let size := if filled then o.size else size
  let pos := (alookup st.positions o.symbol).getD {}
  let u := pos.update size price
  let st := { st with positions := ainsert st.positions o.symbol u.1 }
  let o' := o.execute size price u.2.1 u.2.2.1
  let st := st.setOrder o'
  if o'.executed.remsize ≠ 0 then
    let o2 := o'.toPartFilled
    let st := (st.setOrder o2).notify o2
    st.ococheck o2
  else
    let o2 := o'.completed
    let st := (st.setOrder o2).notify o2
    match bracketize fuel st o2 false with
    | .error e => .error e
    | .ok st => (st.reqBalance).ococheck o2

/-- `MTraderBroker._fill(oref, size, price, filled)`: ignore size-0 non-final
events; look the ref up in the registry; an alive order executes directly; a
dead ref resolves through the bracket tracker (an unknown bracket key pushes
one inconsistency notification to the store and drops the fill), then the
disambiguated leg executes. -/
def fill (fuel : Nat) (st : Broker) (oref : Nat) (size price : ℚ)
    (filled : Bool) : Except String Broker :=
  if size = 0 ∧ filled = false then .ok st
  else
    match alookup st.orders oref with
    | none => .error "KeyError"
    | some o0 =>
      if o0.alive then applyFill fuel st o0 size price filled
      else
        let pref := o0.parent.getD o0.ref
        match alookup st.brackets pref with
        | none => .ok (st.putStoreNotif (.inconsistentFill o0.ref price size))
        | some br =>
          match fillTarget st o0 br price with
          | .error e => .error e
          | .ok target => applyFill fuel st target size price filled

/-- Body of `MTraderBroker._submit`, parameterised over the recursive call:
a silent no-op when the status is (exactly) Submitted; otherwise submit,
notify, and submit every other member of the bracket group keyed by this
ref. -/
def submitCore (submitF : Broker → Nat → Except String Broker) (st : Broker)
    (oref : Nat) : Except String Broker :=
  match alookup st.orders oref with
  | none => .error "KeyError"
  | some o =>
    if o.status = .Submitted then .ok st
    else
      let o' := o.submit
      let st := (st.setOrder o').notify o'
      let br := (alookup st.brackets oref).getD []
      br.foldlM (fun s r => if r ≠ oref then submitF s r else .ok s) st

/-- `MTraderBroker._submit`, fueled. -/
def submitB : Nat → Broker → Nat → Except String Broker
  | 0, _, _ => .error "fuel exhausted"
  | fuel + 1, st, oref => submitCore (submitB fuel) st oref

/-- Append one creation request to the store's `q_ordercreate`. -/
def pushCreate (st : Broker) (req : CreateReq) : Broker :=
  { st with store :=
      { st.store with q_ordercreate := st.store.q_ordercreate ++ [req] } }

/-- `MTraderBroker._transmit`: a transmitting child pops the pending
`[parent, stopside]` pair (`KeyError`/unpack `ValueError` otherwise),
registers all three orders, creates the 3-member bracket group under the
parent's ref, issues one creation request bundling the three legs, and
returns the child; a transmitting parent registers itself and issues its own
creation request; a non-transmitting order is appended to the pending list of
its parent-or-self ref and returned unchanged. -/
def transmitB (st : Broker) (o : Order) : Except String (Broker × Order) :=
  let oref := o.ref
  let pref := o.parent.getD oref
  if o.transmit then
    if oref ≠ pref then
      match alookup st.opending pref with
      | some [parentO, stopside] =>
        let st := { st with opending := aerase st.opending pref }
        let takeside := o
        let st := ((st.setOrder parentO).setOrder stopside).setOrder takeside
        let newbr := [parentO.ref, stopside.ref, takeside.ref]
        let st := { st with brackets := ainsert st.brackets pref newbr }
        match order_create parentO (some stopside) (some takeside) with
        | .error e => .error e
        | .ok req => .ok (st.pushCreate req, takeside)
      | some _ => .error "ValueError"
      | none => .error "KeyError"
    else
      let st := st.setOrder o
      match order_create o none none with
      | .error e => .error e
      | .ok req => .ok (st.pushCreate req, o)
  else
    .ok ({ st with opending := alappend st.opending pref o }, o)

/-- Order construction (backtrader `BuyOrder`/`SellOrder`): allocate the next
ref from `Order.refbasis`, negate the size for a sell, default the execution
type to Market, start Created with `remsize` equal to the signed size. -/
def mkOrder (st : Broker) (t : OrdType) (symbol : String) (size : ℚ)
    (price : Option ℚ) (et : Option ExecType) (parent oco : Option Nat)
    (transmit : Bool) : Order × Broker :=
  let sz : ℚ := match t with | .Buy => size | .Sell => -size
  let o : Order :=
    { ref := st.refbasis
      ordtype := t
      symbol := symbol
      size := sz
      price := price
      exectype := et.getD .Market
      parent := parent
      oco := oco
      transmit := transmit
      executed := { remsize := sz } }
  (o, { st with refbasis := st.refbasis + 1 })

/-- `MTraderBroker.buy`: build the order, run `_ocoize`, then `_transmit`. -/
def buy (st : Broker) (symbol : String) (size : ℚ) (price : Option ℚ)
    (et : Option ExecType) (parent oco : Option Nat) (transmit : Bool) :
    Except String (Broker × Order) :=
  let p := mkOrder st .Buy symbol size price et parent oco transmit
  transmitB (p.2.ocoize p.1) p.1

/-- `MTraderBroker.sell`: build the order, run `_ocoize`, then `_transmit`. -/
def sell (st : Broker) (symbol : String) (size : ℚ) (price : Option ℚ)
    (et : Option ExecType) (parent oco : Option Nat) (transmit : Bool) :
    Except String (Broker × Order) :=
  let p := mkOrder st .Sell symbol size price et parent oco transmit
  transmitB (p.2.ocoize p.1) p.1

/-- Side-dispatched entry point (the sequence in the transmission-gate claim
may mix `buy` and `sell` calls). -/
def place (st : Broker) (t : OrdType) (symbol : String) (size : ℚ)
    (price : Option ℚ) (et : Option ExecType) (parent oco : Option Nat)
    (transmit : Bool) : Except String (Broker × Order) :=
  match t with
  | .Buy => st.buy symbol size price et parent oco transmit
  | .Sell => st.sell symbol size price et parent oco transmit

/-- `MTraderStore.rebuild_order(order, oid)`: record the remote id and the
MetaTrader order type for the ref (`ValueError` for an unsupported type). -/
def rebuildOrderStore (st : Broker) (o : Order) (oid : Nat) :
    Except String Broker :=
  match ordertypeOf o.exectype o.ordtype with
  | none => .error "ValueError"
  | some otype =>
    .ok { st with store :=
        { st.store with
          s_orders := ainsert st.store.s_orders o.ref oid
          s_orders_type := ainsert st.store.s_orders_type o.ref otype
          s_ordersrev := ainsert st.store.s_ordersrev oid o.ref } }

end Broker

/-- One position of the remote snapshot as `rebuild_positions` reads it
through `PositionAdapter`: remote id, symbol, volume, side (`type` ending in
`_BUY`), open price, protective levels (0 meaning absent), and the parsed
`key=value|...` comment tag. -/
structure PosSnapshot where
  oid : Nat
  symbol : String
  volume : ℚ
  isBuy : Bool
  openPrice : ℚ
  stoploss : ℚ
  takeprofit : ℚ
  comment : List (String × Nat)
deriving DecidableEq, Repr

namespace Broker

/-- Body of `MTraderBroker.rebuild_positions` for one snapshot entry: merge
the signed size into the position ledger (a zero position is replaced, any
other updated), skip the rest when no data feed carries the symbol, seed the
ref counter from the tag, synthesize the completed parent order plus the
protective stop/take-profit legs (when their levels are positive), register
them and the bracket group, submit the group, then execute and complete the
parent, notify, and resolve bracket and OCO state. -/
def rebuildOne (fuel : Nat) (st : Broker) (p : PosSnapshot) :
    Except String Broker :=
  let size : ℚ := if p.isBuy then p.volume else -p.volume
  let price := p.openPrice
  let pos0 := (alookup st.positions p.symbol).getD {}
  let st :=
    if pos0.size = 0 then
      { st with positions := ainsert st.positions p.symbol ⟨size, price⟩ }
    else
      { st with positions :=
          ainsert st.positions p.symbol (pos0.update size price).1 }
  if st.store.datas.contains p.symbol then
    let st :=
      match alookup p.comment "ref" with
      | some r => { st with refbasis := r }
      | none => st
    let prType := if p.isBuy then OrdType.Buy else OrdType.Sell
    let mk1 := mkOrder st prType p.symbol p.volume (some p.openPrice)
      (some .Market) none none (decide (p.stoploss ≤ 0 ∧ p.takeprofit ≤ 0))
    let order := mk1.1
    let st := mk1.2
    let pref := order.ref
    let st := st.setOrder order
    let st := { st with brackets := ainsert st.brackets pref [order.ref] }
    match st.rebuildOrderStore order p.oid with
    | .error e => .error e
    | .ok st =>
      let st :=
        if p.stoploss > 0 then
          let st :=
            match alookup p.comment "sl" with
            | some r => { st with refbasis := r }
            | none => st
          let slType := if p.isBuy then OrdType.Sell else OrdType.Buy
          let mk2 := mkOrder st slType p.symbol p.volume (some p.stoploss)
            (some .Stop) (some pref) none (decide (p.takeprofit ≤ 0))
          let st := mk2.2.setOrder mk2.1
          { st with brackets := alappend st.brackets pref mk2.1.ref }
        else st
      let st :=
        if p.takeprofit > 0 then
          let st :=
            match alookup p.comment "tp" with
            | some r => { st with refbasis := r }
            | none => st
          let tpType := if p.isBuy then OrdType.Sell else OrdType.Buy
          let mk3 := mkOrder st tpType p.symbol p.volume (some p.takeprofit)
            (some .Limit) (some pref) none true
          let st := mk3.2.setOrder mk3.1
          { st with brackets := alappend st.brackets pref mk3.1.ref }
        else st
      match submitB fuel st pref with
      | .error e => .error e
      | .ok st =>
        match alookup st.orders pref with
        | none => .error "KeyError"
        | some po =>
          let po1 := po.execute po.size (po.price.getD 0) po.size
            (po.price.getD 0)
          let po2 := po1.completed
          let st := (st.setOrder po2).notify po2
          match bracketize fuel st po2 false with
          | .error e => .error e
          | .ok st => st.ococheck po2
  else .ok st

/-- `MTraderBroker.rebuild_positions` over the remote snapshot. -/
def rebuildPositions (fuel : Nat) (st : Broker) (ps : List PosSnapshot) :
    Except String Broker :=
  ps.foldlM (fun s p => rebuildOne fuel s p) st

end Broker

/-! ## Preservation lemmas -/

namespace Broker

theorem cancelPub_orders (st : Broker) (o : Order) :
    (st.cancelPub o).orders = st.orders := by
  unfold cancelPub
  cases alookup st.orders o.ref <;> simp
  split <;> simp

theorem cancelPub_notifs (st : Broker) (o : Order) :
    (st.cancelPub o).notifs = st.notifs := by
  unfold cancelPub
  cases alookup st.orders o.ref <;> simp
  split <;> simp

theorem cancelPub_brackets (st : Broker) (o : Order) :
    (st.cancelPub o).brackets = st.brackets := by
  unfold cancelPub
  cases alookup st.orders o.ref <;> simp
  split <;> simp

theorem cancelPub_positions (st : Broker) (o : Order) :
    (st.cancelPub o).positions = st.positions := by
  unfold cancelPub
  cases alookup st.orders o.ref <;> simp
  split <;> simp

theorem ocoCancelAll_orders (selfref : Nat) (l : List Nat) (st : Broker) :
    (ocoCancelAll st selfref l).orders = st.orders := by
  induction l generalizing st with
  | nil => rfl
  | cons r rs ih =>
    show (ocoCancelAll _ selfref rs).orders = st.orders
    rw [ih]
    cases h2 : alookup st.orders r with
    | none => simp [h2]
    | some o2 =>
      by_cases hr : o2.ref = selfref <;> simp [h2, hr, cancelPub_orders]

theorem ocoCancelAll_notifs (selfref : Nat) (l : List Nat) (st : Broker) :
    (ocoCancelAll st selfref l).notifs = st.notifs := by
  induction l generalizing st with
  | nil => rfl
  | cons r rs ih =>
    show (ocoCancelAll _ selfref rs).notifs = st.notifs
    rw [ih]
    cases h2 : alookup st.orders r with
    | none => simp [h2]
    | some o2 =>
      by_cases hr : o2.ref = selfref <;> simp [h2, hr, cancelPub_notifs]

theorem ocoCancelAll_brackets (selfref : Nat) (l : List Nat) (st : Broker) :
    (ocoCancelAll st selfref l).brackets = st.brackets := by
  induction l generalizing st with
  | nil => rfl
  | cons r rs ih =>
    show (ocoCancelAll _ selfref rs).brackets = st.brackets
    rw [ih]
    cases h2 : alookup st.orders r with
    | none => simp [h2]
    | some o2 =>
      by_cases hr : o2.ref = selfref <;> simp [h2, hr, cancelPub_brackets]

theorem ocoCancelAll_positions (selfref : Nat) (l : List Nat) (st : Broker) :
    (ocoCancelAll st selfref l).positions = st.positions := by
  induction l generalizing st with
  | nil => rfl
  | cons r rs ih =>
    show (ocoCancelAll _ selfref rs).positions = st.positions
    rw [ih]
    cases h2 : alookup st.orders r with
    | none => simp [h2]
    | some o2 =>
      by_cases hr : o2.ref = selfref <;> simp [h2, hr, cancelPub_positions]

/-- `_ococheck` on a non-alive order succeeds and leaves the order registry,
broker notifications, bracket tracker and position ledger unchanged. -/
theorem ococheck_ok (st : Broker) (o : Order) (h : o.alive = false) :
    ∃ st', st.ococheck o = .ok st' ∧ st'.orders = st.orders ∧
      st'.notifs = st.notifs ∧ st'.brackets = st.brackets ∧
      st'.positions = st.positions := by
  unfold ococheck
  rw [h]
  simp only [Bool.false_eq_true, if_false]
  by_cases hnil : ((alookup ({ st with ocos := aerase st.ocos o.ref} :
      Broker).ocol ((alookup st.ocos o.ref).getD o.ref)).getD []) = []
  · exact ⟨_, if_pos hnil, rfl, rfl, rfl, rfl⟩
  · refine ⟨_, if_neg hnil, ?_, ?_, ?_, ?_⟩ <;>
      simp [ocoCancelAll_orders, ocoCancelAll_notifs,
        ocoCancelAll_brackets, ocoCancelAll_positions]

end Broker

/-! ## Claim theorems -/

/-- C8: once `_bracketize` has removed a bracket group from the tracker
(its key is gone), any subsequent `_bracketize` invocation for an order of
that group — in fill or in cancel mode — returns the broker state unchanged:
no order status changes, no cancellation is issued, no notification is
emitted.  The group is removed and resolved exactly once. -/
theorem c8_bracket_resolved_once (fuel : Nat) (st : Broker) (o : Order)
    (docancel : Bool)
    (h : alookup st.brackets (o.parent.getD o.ref) = none) :
    Broker.bracketize (fuel + 1) st o docancel = .ok st := by
  simp [Broker.bracketize, Broker.cancelCore.bracketizeCore, h]

/-- Fixture order for the C8 witness. -/
def c8ord : Order :=
  { ref := 1, ordtype := .Buy, symbol := "EU", size := 1, price := none,
    exectype := .Market }

/-- Witness for C8 at a concrete input. -/
theorem c8_witness :
    alookup ({} : Broker).brackets (c8ord.parent.getD c8ord.ref) = none ∧
    Broker.bracketize 1 {} c8ord true = .ok {} :=
  ⟨rfl, c8_bracket_resolved_once 0 {} c8ord true rfl⟩

/-- C9: a `_fill` event for a registered order that is not alive and whose
parent-or-self ref is not a key of the bracket tracker pushes exactly one
inconsistency notification to the store and returns with every other part of
the broker state — order registry, bracket tracker, position ledger, queues —
unchanged: the fill is dropped, not applied and not retried. -/
theorem c9_unknown_fill_dropped (fuel : Nat) (st : Broker) (oref : Nat)
    (size price : ℚ) (filled : Bool) (o0 : Order)
    (hsz : ¬(size = 0 ∧ filled = false))
    (hreg : alookup st.orders oref = some o0)
    (halive : o0.alive = false)
    (hbr : alookup st.brackets (o0.parent.getD o0.ref) = none) :
    Broker.fill fuel st oref size price filled =
      .ok { st with store := { st.store with notifs :=
        st.store.notifs ++ [.inconsistentFill o0.ref price size] } } := by
  simp [Broker.fill, if_neg hsz, hreg, halive, hbr, Broker.putStoreNotif]

/-- Fixture order for the C9 witness: a completed order with no bracket. -/
def c9ord : Order :=
  { ref := 4, ordtype := .Buy, symbol := "EU", size := 2, price := none,
    exectype := .Market, status := .Completed }

/-- Fixture broker for the C9 witness. -/
def c9st : Broker := { orders := [(4, c9ord)] }

/-- Witness for C9 at a concrete input. -/
theorem c9_witness :
    (¬((3 : ℚ) = 0 ∧ false = false)) ∧
    alookup c9st.orders 4 = some c9ord ∧
    c9ord.alive = false ∧
    alookup c9st.brackets (c9ord.parent.getD c9ord.ref) = none ∧
    Broker.fill 9 c9st 4 3 101 false =
      .ok { c9st with store := { c9st.store with notifs :=
        c9st.store.notifs ++ [.inconsistentFill c9ord.ref 101 3] } } :=
  ⟨by simp, rfl, rfl, rfl,
    c9_unknown_fill_dropped 9 c9st 4 3 101 false c9ord (by simp) rfl rfl rfl⟩

/-- C10: the public `cancel(order)` is a no-op — no remote cancellation
command enqueued, no broker state modified — whenever the order's ref is not
in the registry or the order's status is already Cancelled (backtrader's
`Order.Cancelled` is an alias of `Canceled`). -/
theorem c10_cancel_noop (st : Broker) (o : Order)
    (h : alookup st.orders o.ref = none ∨ o.status = .Canceled) :
    Broker.cancelPub st o = st := by
  unfold Broker.cancelPub
  rcases h with h | h
  · rw [h]
  · cases hl : alookup st.orders o.ref with
    | none => rfl
    | some _ => simp [hl, h]

/-- Fixture order for the C10 witness: ref 9 is not registered. -/
def c10ord : Order :=
  { ref := 9, ordtype := .Sell, symbol := "EU", size := 1, price := none,
    exectype := .Market }

/-- Witness for C10 at a concrete input. -/
theorem c10_witness :
    (alookup ({} : Broker).orders c10ord.ref = none ∨
      c10ord.status = .Canceled) ∧
    Broker.cancelPub {} c10ord = {} :=
  ⟨Or.inl rfl, c10_cancel_noop {} c10ord (Or.inl rfl)⟩

/-- Fixture for C1: an Accepted limit order, the OCO group's partner. -/
def c1ordA : Order :=
  { ref := 1, ordtype := .Buy, symbol := "EU", size := 1, price := some 100,
    exectype := .Limit, status := .Accepted }

/-- Fixture for C1: second order, declaring order 1 as its OCO partner. -/
def c1ordB : Order := { c1ordA with ref := 2, oco := some 1 }

/-- Fixture for C1: third order, also declaring order 1 as its partner. -/
def c1ordC : Order := { c1ordA with ref := 3, oco := some 1 }

/-- Fixture for C1: broker with the three orders registered. -/
def c1st0 : Broker := { orders := [(1, c1ordA), (2, c1ordB), (3, c1ordC)] }

/-- Fixture for C1: the state after `_ocoize(order2)` and `_ocoize(order3)`. -/
def c1st2 : Broker := (c1st0.ocoize c1ordB).ocoize c1ordC

/-- C1, evaluated at the failing input: after orders 2 and 3 each declare
order 1 as OCO partner, `_ocos` maps 2 and 3 to 1 but never maps the partner
1 to itself (the code writes `_ocos[oref] = ocoref` instead of registering
the partner), the member list for key 1 is `[1, 2, 1, 3]` — the partner
appears twice, not once — and `_ococheck` on terminal member 2 enqueues three
cancellation commands `[1, 1, 3]`: order 1 is cancelled twice, instead of
exactly n−1 = 2 cancels with each member cancelled at most once. -/
theorem c1_oco_registration_bug :
    c1st2.ocos = [(2, 1), (3, 1)] ∧
    alookup c1st2.ocos 1 = none ∧
    c1st2.ocol = [(1, [1, 2, 1, 3])] ∧
    ((c1st2.setOrder c1ordB.cancel).ococheck c1ordB.cancel).map
      (fun s => s.store.q_orderclose) = .ok [1, 1, 3] :=
  ⟨rfl, rfl, rfl, rfl⟩

/-- Fixture for C2: an alive (Accepted) buy order of size 10. -/
def c2ord : Order :=
  { ref := 1, ordtype := .Buy, symbol := "EU", size := 10, price := none,
    exectype := .Market, status := .Accepted, executed := { remsize := 10 } }

/-- Fixture broker for C2. -/
def c2st : Broker := { orders := [(1, c2ord)] }

/-- C2, evaluated at the failing input: a partial fill (size 4 of 10) of an
alive order does mark it Partial and notify, but `_fill` then runs
`_ococheck` unconditionally, and `_ococheck` raises `Exception("Should not be
called here")` because the partially-filled order is still alive — so every
partial fill raises instead of returning normally. -/
theorem c2_partial_fill_raises :
    Broker.fill 9 c2st 1 4 100 false = .error "Should not be called here" := by
  norm_num [Broker.fill, Broker.applyFill, Broker.ococheck, Order.alive,
    Order.execute, Pos.update, Order.toPartFilled, Broker.setOrder,
    Broker.notify, alookup, ainsert, aerase, c2st, c2ord]

/-- Fixture for C4: the completed Buy primary of the bracket. -/
def c4prim : Order :=
  { ref := 1, ordtype := .Buy, symbol := "EU", size := 5, price := some 100,
    exectype := .Market, status := .Completed,
    executed := { esize := 5, remsize := 0 } }

/-- Fixture for C4: the dead (Rejected) Sell stop leg at price 90. -/
def c4stop : Order :=
  { ref := 2, ordtype := .Sell, symbol := "EU", size := -5, price := some 90,
    exectype := .Stop, parent := some 1, status := .Rejected,
    executed := { remsize := -5 } }

/-- Fixture for C4: the live Sell take-profit leg at price 110. -/
def c4take : Order :=
  { ref := 3, ordtype := .Sell, symbol := "EU", size := -5, price := some 110,
    exectype := .Limit, parent := some 1, status := .Accepted,
    executed := { remsize := -5 } }

/-- Fixture broker for C4: bracket key 1 holding the two protective legs. -/
def c4st : Broker :=
  { orders := [(1, c4prim), (2, c4stop), (3, c4take)],
    brackets := [(1, [2, 3])] }

/-- C4 counterexample: the bracket's primary (order 1) is a Buy with stop 90
and limit 110; a fill at price 100 referencing the dead Sell stop leg
(order 2) should, by the claim's primary-side rule (Buy, 100 < 110), be
attributed to the stop leg — but the code tests the referenced order's own
side (Sell, 100 ≤ 110) and attributes it to the take-profit leg: `_fill`
continues as a fill of order 3, not of order 2. -/
theorem c4_counterexample :
    c4prim.ordtype = .Buy ∧
    alookup c4st.orders 2 = some c4stop ∧ c4stop.alive = false ∧
    alookup c4st.brackets (c4stop.parent.getD c4stop.ref) = some [2, 3] ∧
    c4stop.price = some 90 ∧ c4take.price = some 110 ∧ (100 : ℚ) < 110 ∧
    Broker.fillTarget c4st c4stop [2, 3] 100 = .ok c4take ∧
    Broker.fill 9 c4st 2 (-5) 100 false =
      Broker.applyFill 9 c4st c4take (-5) 100 false ∧
    c4take ≠ c4stop := by
  have hft : Broker.fillTarget c4st c4stop [2, 3] 100 = .ok c4take := by
    have h100 : ((100 : ℚ) ≤ 110) = True := by norm_num
    simp [Broker.fillTarget, Broker.pyNegIdx, alookup, c4st, c4stop, c4take,
      c4prim, h100]
  have hfill : Broker.fill 9 c4st 2 (-5) 100 false =
      Broker.applyFill 9 c4st c4take (-5) 100 false := by
    have hm : ((-5 : ℚ) = 0) = False := by norm_num
    have h2 : alookup c4st.orders 2 = some c4stop := rfl
    have ha : c4stop.alive = false := rfl
    have hpref : alookup c4st.brackets (c4stop.parent.getD c4stop.ref) =
        some [2, 3] := rfl
    simp only [Broker.fill, hm, h2, ha, hpref, hft, false_and, and_true,
      Bool.false_eq_true, if_false, eq_self_iff_true, if_true]
  exact ⟨rfl, rfl, rfl, rfl, rfl, rfl, by norm_num, hft, hfill,
    by simp [c4take, c4stop]⟩

/-- Fixture for C7: a registered order already past Submitted (Accepted). -/
def c7ord : Order :=
  { ref := 1, ordtype := .Buy, symbol := "EU", size := 1, price := none,
    exectype := .Market, status := .Accepted }

/-- Fixture broker for C7. -/
def c7st : Broker := { orders := [(1, c7ord)] }

/-- C7 counterexample: `_submit` on an order already PAST the Submitted state
(Accepted) is not a silent no-op — the guard tests equality with Submitted
only, so the order's status is reset to Submitted and a fresh notification is
appended. -/
theorem c7_counterexample :
    (Broker.submitB 9 c7st 1).map
      (fun s => ((alookup s.orders 1).map Order.status, s.notifs.length)) =
    .ok (some .Submitted, 1) :=
  rfl


/-- C3: bracket resolution on a fill (`_bracketize`, cancel = False).  With
exactly 3 members `[a, b, c]` the primary `a` is removed, the two protective
legs `b` and `c` are activated, and the 2-member group `[b, c]` is kept in
the tracker under the same primary key, with no notification, no store
side effect and no position change; with exactly 2 members one of which is
the filled order, the sibling is cancelled (status Canceled plus one
notification) and the group is removed from the tracker. -/
theorem c3_bracket_fill_resolution :
    (∀ (fuel : Nat) (st : Broker) (o : Order) (a b c : Nat) (ob oc : Order),
      alookup st.brackets (o.parent.getD o.ref) = some [a, b, c] →
      alookup st.orders b = some ob → alookup st.orders c = some oc →
      ob.ref = b → oc.ref = c → b ≠ c →
      ∃ st', Broker.bracketize (fuel + 1) st o false = .ok st' ∧
        alookup st'.brackets (o.parent.getD o.ref) = some [b, c] ∧
        alookup st'.orders b = some ob.activate ∧
        alookup st'.orders c = some oc.activate ∧
        st'.notifs = st.notifs ∧ st'.store = st.store ∧
        st'.positions = st.positions) ∧
    (∀ (fuel : Nat) (st : Broker) (o : Order) (r1 r2 : Nat) (oo : Order),
      alookup st.brackets (o.parent.getD o.ref) = some [r1, r2] →
      (o.ref = r1 ∨ (o.ref ≠ r1 ∧ o.ref = r2)) →
      alookup st.orders (if o.ref = r1 then r2 else r1) = some oo →
      oo.ref = (if o.ref = r1 then r2 else r1) →
      oo.status ≠ .Canceled →
      oo.parent.getD oo.ref = o.parent.getD o.ref →
      ∃ st', Broker.bracketize (fuel + 2) st o false = .ok st' ∧
        alookup st'.brackets (o.parent.getD o.ref) = none ∧
        alookup st'.orders (if o.ref = r1 then r2 else r1) =
          some oo.cancel ∧
        st'.notifs = st.notifs ++ [oo.cancel]) := by
  constructor
  · intro fuel st o a b c ob oc hbr hb hc hrb hrc hbc
    have h2 : alookup (ainsert st.orders b ob.activate) c = some oc :=
      (alookup_ainsert_ne st.orders ob.activate hbc.symm).trans hc
    have heq : Broker.bracketize (fuel + 1) st o false = .ok
        ⟨st.store, ainsert (ainsert st.orders b ob.activate) c oc.activate,
          st.notifs, st.opending,
          ainsert (aerase st.brackets (o.parent.getD o.ref))
            (o.parent.getD o.ref) [b, c],
          st.ocos, st.ocol, st.positions, st.refbasis⟩ := by
      simp only [Broker.bracketize, Broker.cancelCore.bracketizeCore, hbr,
        Broker.mapOrderAt, Broker.setOrder, Bool.false_eq_true, if_false,
        Order.activate_ref, hrb, hrc, hb, h2]
    refine ⟨_, heq, ?_, ?_, ?_, rfl, rfl, rfl⟩
    · simp
    · show alookup (ainsert (ainsert st.orders b ob.activate) c oc.activate)
        b = some ob.activate
      rw [alookup_ainsert_ne _ _ hbc, alookup_ainsert_self]
    · simp
  · intro fuel st o r1 r2 oo hbr hmem hoo hooref hstat hpar
    have hstat' : (oo.status = OrdStatus.Canceled) = False := eq_false hstat
    rcases hmem with h | ⟨hne, h⟩
    · rw [if_pos h] at hoo hooref
      simp only [if_pos h]
      have h1 : (r1 = o.ref) = True := by simp [h]
      have hpar2 : oo.parent.getD r2 = o.parent.getD o.ref := by
        rw [← hooref]; exact hpar
      have heq : Broker.bracketize (fuel + 2) st o false = Broker.ococheck
          ⟨st.store, ainsert st.orders r2 oo.cancel,
            st.notifs ++ [oo.cancel], st.opending,
            aerase st.brackets (o.parent.getD o.ref),
            st.ocos, st.ocol, st.positions, st.refbasis⟩ oo.cancel := by
        simp only [Broker.bracketize, Broker.cancelCore.bracketizeCore, hbr,
          Bool.false_eq_true, if_false, h1, if_true, Broker.cancelPriv,
          Broker.cancelCore, hoo, hstat', Broker.setOrder, Broker.notify,
          Order.cancel_ref, Order.cancel_parent, hooref, hpar2,
          alookup_aerase_self]
      rcases Broker.ococheck_ok
          ⟨st.store, ainsert st.orders r2 oo.cancel,
            st.notifs ++ [oo.cancel], st.opending,
            aerase st.brackets (o.parent.getD o.ref),
            st.ocos, st.ocol, st.positions, st.refbasis⟩ oo.cancel
          (Order.cancel_alive oo) with ⟨st3, h3eq, h3o, h3n, h3b, h3p⟩
      refine ⟨st3, heq.trans h3eq, ?_, ?_, ?_⟩
      · rw [h3b]; exact alookup_aerase_self st.brackets _
      · rw [h3o]; exact alookup_ainsert_self st.orders r2 oo.cancel
      · rw [h3n]
    · rw [if_neg hne] at hoo hooref
      simp only [if_neg hne]
      have h1 : (r1 = o.ref) = False := eq_false (Ne.symm hne)
      have h2 : (r2 = o.ref) = True := by simp [h]
      have hpar2 : oo.parent.getD r1 = o.parent.getD o.ref := by
        rw [← hooref]; exact hpar
      have heq : Broker.bracketize (fuel + 2) st o false = Broker.ococheck
          ⟨st.store, ainsert st.orders r1 oo.cancel,
            st.notifs ++ [oo.cancel], st.opending,
            aerase st.brackets (o.parent.getD o.ref),
            st.ocos, st.ocol, st.positions, st.refbasis⟩ oo.cancel := by
        simp only [Broker.bracketize, Broker.cancelCore.bracketizeCore, hbr,
          Bool.false_eq_true, if_false, h1, h2, if_true, Broker.cancelPriv,
          Broker.cancelCore, hoo, hstat', Broker.setOrder, Broker.notify,
          Order.cancel_ref, Order.cancel_parent, hooref, hpar2,
          alookup_aerase_self]
      rcases Broker.ococheck_ok
          ⟨st.store, ainsert st.orders r1 oo.cancel,
            st.notifs ++ [oo.cancel], st.opending,
            aerase st.brackets (o.parent.getD o.ref),
            st.ocos, st.ocol, st.positions, st.refbasis⟩ oo.cancel
          (Order.cancel_alive oo) with ⟨st3, h3eq, h3o, h3n, h3b, h3p⟩
      refine ⟨st3, heq.trans h3eq, ?_, ?_, ?_⟩
      · rw [h3b]; exact alookup_aerase_self st.brackets _
      · rw [h3o]; exact alookup_ainsert_self st.orders r1 oo.cancel
      · rw [h3n]

/-- Fixture for the C3 witness: the bracket primary (filled). -/
def c3prim : Order :=
  { ref := 1, ordtype := .Buy, symbol := "EU", size := 5, price := some 100,
    exectype := .Market, status := .Completed }

/-- Fixture for the C3 witness: the stop leg. -/
def c3stop : Order :=
  { ref := 2, ordtype := .Sell, symbol := "EU", size := -5, price := some 90,
    exectype := .Stop, parent := some 1, status := .Accepted }

/-- Fixture for the C3 witness: the take-profit leg. -/
def c3take : Order :=
  { ref := 3, ordtype := .Sell, symbol := "EU", size := -5, price := some 110,
    exectype := .Limit, parent := some 1, status := .Accepted }

/-- Fixture for the C3 witness: broker with the full 3-member group. -/
def c3st3 : Broker :=
  { orders := [(1, c3prim), (2, c3stop), (3, c3take)],
    brackets := [(1, [1, 2, 3])] }

/-- Fixture for the C3 witness: broker with the 2-member group, the take leg
having just filled. -/
def c3st2 : Broker :=
  { orders := [(1, c3prim), (2, c3stop), (3, c3take.completed)],
    brackets := [(1, [2, 3])] }

/-- Witness for C3 at concrete inputs (both conjuncts). -/
theorem c3_witness :
    (∃ st', Broker.bracketize (3 + 1) c3st3 c3prim false = .ok st' ∧
      alookup st'.brackets (c3prim.parent.getD c3prim.ref) = some [2, 3] ∧
      alookup st'.orders 2 = some c3stop.activate ∧
      alookup st'.orders 3 = some c3take.activate ∧
      st'.notifs = c3st3.notifs ∧ st'.store = c3st3.store ∧
      st'.positions = c3st3.positions) ∧
    (∃ st', Broker.bracketize (3 + 2) c3st2 c3take.completed false = .ok st' ∧
      alookup st'.brackets
        ((c3take.completed).parent.getD (c3take.completed).ref) = none ∧
      alookup st'.orders
        (if (c3take.completed).ref = 2 then 3 else 2) = some c3stop.cancel ∧
      st'.notifs = c3st2.notifs ++ [c3stop.cancel]) :=
  ⟨c3_bracket_fill_resolution.1 3 c3st3 c3prim 1 2 3 c3stop c3take rfl rfl rfl
      rfl rfl (by decide),
   c3_bracket_fill_resolution.2 3 c3st2 c3take.completed 2 3 c3stop rfl
      (Or.inr ⟨by decide, rfl⟩) rfl rfl (by decide) rfl⟩


/-- C4 (amended): for a `_fill` event referencing a registered order that is
not alive, whose parent-or-self ref keys a bracket group with both protective
legs present (`stop = br[-2]`, `limit = br[-1]`), the fill is attributed by
the REFERENCED order's own side — not the bracket primary's side: if the
referenced order is a Buy, the take-profit (limit) leg receives the fill
exactly when the reported price is ≥ the limit leg's price, otherwise the
stop leg; if it is a Sell, the limit leg receives it exactly when the price
is ≤ the limit leg's price, otherwise the stop leg.  (The two rules coincide
with the original claim when the referenced order is the primary itself.) -/
theorem c4_amended_fill_attribution (fuel : Nat) (st : Broker) (oref : Nat)
    (size price : ℚ) (filled : Bool) (o0 : Order) (br : List Nat)
    (sref lref : Nat) (stopO limitO : Order) (lp : ℚ)
    (hsz : ¬(size = 0 ∧ filled = false))
    (hreg : alookup st.orders oref = some o0)
    (halive : o0.alive = false)
    (hbr : alookup st.brackets (o0.parent.getD o0.ref) = some br)
    (hs : Broker.pyNegIdx br 2 = some sref)
    (hl : Broker.pyNegIdx br 1 = some lref)
    (hso : alookup st.orders sref = some stopO)
    (hlo : alookup st.orders lref = some limitO)
    (hlp : limitO.price = some lp) :
    (o0.ordtype = .Buy →
      Broker.fill fuel st oref size price filled =
        Broker.applyFill fuel st (if price ≥ lp then limitO else stopO)
          size price filled) ∧
    (o0.ordtype = .Sell →
      Broker.fill fuel st oref size price filled =
        Broker.applyFill fuel st (if price ≤ lp then limitO else stopO)
          size price filled) := by
  constructor
  · intro hside
    have hside' : (o0.ordtype = OrdType.Buy) = True := by simp [hside]
    simp only [Broker.fill, if_neg hsz, hreg, halive, Bool.false_eq_true,
      if_false, hbr, Broker.fillTarget, hs, hl, hso, hlo, hlp, hside',
      if_true]
  · intro hside
    have hside' : (o0.ordtype = OrdType.Buy) = False := by
      simp [hside]
    simp only [Broker.fill, if_neg hsz, hreg, halive, Bool.false_eq_true,
      if_false, hbr, Broker.fillTarget, hs, hl, hso, hlo, hlp, hside']

/-- Witness for C4's amended theorem at a concrete input: the fill at price
100 referencing the dead Sell stop leg of the Buy bracket is attributed by
the Sell rule. -/
theorem c4_amended_witness :
    (¬((-5 : ℚ) = 0 ∧ false = false)) ∧
    c4stop.alive = false ∧
    Broker.fill 9 c4st 2 (-5) 100 false =
      Broker.applyFill 9 c4st (if (100 : ℚ) ≤ 110 then c4take else c4stop)
        (-5) 100 false :=
  ⟨by norm_num, rfl,
    (c4_amended_fill_attribution 9 c4st 2 (-5) 100 false c4stop [2, 3] 2 3
      c4stop c4take 110 (by norm_num) rfl rfl rfl rfl rfl rfl rfl rfl).2 rfl⟩


/-- Bind of a successful `Except` computation (helper for unfolding). -/
theorem except_bind_ok {e a b : Type} (x : a) (f : a → Except e b) :
    (Except.ok x >>= f : Except e b) = f x := rfl

/-- Pure of the `Except` monad is `Except.ok` (helper for unfolding). -/
theorem except_pure_eq {e a : Type} (x : a) :
    (pure x : Except e a) = Except.ok x := rfl

/-- C7 (amended): `_submit` is a silent no-op only when the order's status is
EXACTLY Submitted (the guard is an equality test, so an order past Submitted,
e.g. Accepted, is re-submitted with a new notification — see the
counterexample); consequently calling `_submit` twice in a row on a newly
registered order (not yet Submitted, no bracket group of its own) appends
exactly one notification for it and the second call returns the state
unchanged; and a first `_submit` on a 3-member bracket's primary submits
every other member exactly once: each of the three ends Submitted with one
notification apiece, in order. -/
theorem c7_amended_submit_idempotence :
    (∀ (fuel : Nat) (st : Broker) (oref : Nat) (o : Order),
      alookup st.orders oref = some o → o.status = .Submitted →
      Broker.submitB (fuel + 1) st oref = .ok st) ∧
    (∀ (fuel : Nat) (st : Broker) (oref : Nat) (o : Order),
      alookup st.orders oref = some o → o.status ≠ .Submitted →
      o.ref = oref → alookup st.brackets oref = none →
      Broker.submitB (fuel + 1) st oref =
        .ok ((st.setOrder o.submit).notify o.submit) ∧
      Broker.submitB (fuel + 1) ((st.setOrder o.submit).notify o.submit)
        oref = .ok ((st.setOrder o.submit).notify o.submit)) ∧
    (∀ (fuel : Nat) (st : Broker) (pref sref tref : Nat) (op os ot : Order),
      alookup st.orders pref = some op → alookup st.orders sref = some os →
      alookup st.orders tref = some ot →
      op.ref = pref → os.ref = sref → ot.ref = tref →
      op.status ≠ .Submitted → os.status ≠ .Submitted →
      ot.status ≠ .Submitted →
      sref ≠ pref → tref ≠ pref → tref ≠ sref →
      alookup st.brackets pref = some [pref, sref, tref] →
      alookup st.brackets sref = none → alookup st.brackets tref = none →
      ∃ st', Broker.submitB (fuel + 2) st pref = .ok st' ∧
        st'.notifs = st.notifs ++ [op.submit, os.submit, ot.submit] ∧
        alookup st'.orders pref = some op.submit ∧
        alookup st'.orders sref = some os.submit ∧
        alookup st'.orders tref = some ot.submit) := by
  refine ⟨?_, ?_, ?_⟩
  · intro fuel st oref o hreg hstat
    simp only [Broker.submitB, Broker.submitCore, hreg, hstat, if_true]
  · intro fuel st oref o hreg hstat href hbrk
    have hstat' : (o.status = OrdStatus.Submitted) = False := eq_false hstat
    constructor
    · simp only [Broker.submitB, Broker.submitCore, hreg, hstat', if_false,
        Broker.setOrder, Broker.notify, hbrk, Option.getD_none, List.foldlM,
        except_pure_eq]
    · have hlook : alookup
          ((st.setOrder o.submit).notify o.submit).orders oref =
          some o.submit := by
        simp only [Broker.notify, Broker.setOrder, Order.submit_ref, href]
        exact alookup_ainsert_self st.orders oref o.submit
      simp only [Broker.submitB, Broker.submitCore, hlook,
        Order.submit_status, if_true]
  · intro fuel st pref sref tref op os ot hp hs ht hrp hrs hrt hsp hss hst
      hne1 hne2 hne3 hbrp hbrs hbrt
    have hsp' : (op.status = OrdStatus.Submitted) = False := eq_false hsp
    have hss' : (os.status = OrdStatus.Submitted) = False := eq_false hss
    have hst' : (ot.status = OrdStatus.Submitted) = False := eq_false hst
    have hs1 : alookup (ainsert st.orders pref op.submit) sref = some os :=
      (alookup_ainsert_ne st.orders op.submit hne1).trans hs
    have ht1 : alookup (ainsert (ainsert st.orders pref op.submit) sref
        os.submit) tref = some ot :=
      ((alookup_ainsert_ne _ os.submit hne3).trans
        ((alookup_ainsert_ne st.orders op.submit hne2).trans ht))
    have hq1 : (pref ≠ pref) = False := by simp
    have hq2 : (sref ≠ pref) = True := by simp [hne1]
    have hq3 : (tref ≠ pref) = True := by simp [hne2]
    have heq : Broker.submitB (fuel + 2) st pref = .ok
        ⟨st.store, ainsert (ainsert (ainsert st.orders pref op.submit) sref
            os.submit) tref ot.submit,
          ((st.notifs ++ [op.submit]) ++ [os.submit]) ++ [ot.submit],
          st.opending, st.brackets, st.ocos, st.ocol, st.positions,
          st.refbasis⟩ := by
      simp only [Broker.submitB, Broker.submitCore, hp, hsp', if_false,
        Broker.setOrder, Broker.notify, Order.submit_ref, hrp, hrs, hrt,
        hbrp, Option.getD_some, List.foldlM, hq1, hq2, hq3, if_true,
        hs1, hss', hbrs, Option.getD_none, ht1, hst', hbrt,
        except_bind_ok, except_pure_eq]
    refine ⟨_, heq, ?_, ?_, ?_, ?_⟩
    · simp
    · show alookup (ainsert (ainsert (ainsert st.orders pref op.submit) sref
        os.submit) tref ot.submit) pref = some op.submit
      rw [alookup_ainsert_ne _ _ (Ne.symm hne2),
        alookup_ainsert_ne _ _ (Ne.symm hne1), alookup_ainsert_self]
    · show alookup (ainsert (ainsert (ainsert st.orders pref op.submit) sref
        os.submit) tref ot.submit) sref = some os.submit
      rw [alookup_ainsert_ne _ _ (Ne.symm hne3), alookup_ainsert_self]
    · exact alookup_ainsert_self _ _ _

/-- Fixture for the C7 witness: an already-Submitted registered order. -/
def c7w1 : Order :=
  { ref := 1, ordtype := .Buy, symbol := "EU", size := 1, price := none,
    exectype := .Market, status := .Submitted }

/-- Fixture broker for the first C7 witness conjunct. -/
def c7wst1 : Broker := { orders := [(1, c7w1)] }

/-- Fixture for the C7 witness: a newly registered (Created) order. -/
def c7w2 : Order :=
  { ref := 2, ordtype := .Buy, symbol := "EU", size := 1, price := none,
    exectype := .Market }

/-- Fixture broker for the second C7 witness conjunct. -/
def c7wst2 : Broker := { orders := [(2, c7w2)] }

/-- Fixture for the C7 witness: bracket primary, Created. -/
def c7wp : Order :=
  { ref := 1, ordtype := .Buy, symbol := "EU", size := 5, price := some 100,
    exectype := .Market }

/-- Fixture for the C7 witness: stop leg, Created. -/
def c7ws : Order :=
  { ref := 2, ordtype := .Sell, symbol := "EU", size := -5, price := some 90,
    exectype := .Stop, parent := some 1 }

/-- Fixture for the C7 witness: take-profit leg, Created. -/
def c7wt : Order :=
  { ref := 3, ordtype := .Sell, symbol := "EU", size := -5, price := some 110,
    exectype := .Limit, parent := some 1 }

/-- Fixture broker for the third C7 witness conjunct. -/
def c7wst3 : Broker :=
  { orders := [(1, c7wp), (2, c7ws), (3, c7wt)],
    brackets := [(1, [1, 2, 3])] }

/-- Witness for C7's amended theorem at concrete inputs, one per conjunct. -/
theorem c7_amended_witness :
    Broker.submitB (0 + 1) c7wst1 1 = .ok c7wst1 ∧
    Broker.submitB (0 + 1) c7wst2 2 =
      .ok ((c7wst2.setOrder c7w2.submit).notify c7w2.submit) ∧
    (∃ st', Broker.submitB (0 + 2) c7wst3 1 = .ok st' ∧
      st'.notifs = c7wst3.notifs ++ [c7wp.submit, c7ws.submit, c7wt.submit] ∧
      alookup st'.orders 1 = some c7wp.submit ∧
      alookup st'.orders 2 = some c7ws.submit ∧
      alookup st'.orders 3 = some c7wt.submit) :=
  ⟨c7_amended_submit_idempotence.1 0 c7wst1 1 c7w1 rfl rfl,
   (c7_amended_submit_idempotence.2.1 0 c7wst2 2 c7w2 rfl (by decide) rfl
      rfl).1,
   c7_amended_submit_idempotence.2.2 0 c7wst3 1 2 3 c7wp c7ws c7wt rfl rfl
      rfl rfl rfl rfl (by decide) (by decide) (by decide) (by decide)
      (by decide) (by decide) rfl rfl rfl⟩

/-- The order constructor only advances the ref counter of the broker. -/
theorem mkOrder_snd (st : Broker) (t : OrdType) (sym : String) (size : ℚ)
    (price : Option ℚ) (et : Option ExecType) (parent oco : Option Nat)
    (transmit : Bool) :
    (Broker.mkOrder st t sym size price et parent oco transmit).2 =
      { st with refbasis := st.refbasis + 1 } := rfl

/-- `_ocoize` does nothing for an order without an OCO partner. -/
theorem ocoize_of_oco_none (st : Broker) (o : Order) (h : o.oco = none) :
    st.ocoize o = st := by
  unfold Broker.ocoize
  rw [h]

/-- `_transmit` of a non-transmitting order only buffers it in the pending
list of its parent-or-self ref. -/
theorem transmitB_not_transmit (st : Broker) (o : Order)
    (h : o.transmit = false) :
    Broker.transmitB st o =
      .ok ({ st with opending := alappend st.opending (o.parent.getD o.ref) o }, o) := by
  unfold Broker.transmitB
  rw [h]
  simp

/-- `buy` and `sell` both construct the order, run `_ocoize`, then
`_transmit`. -/
theorem place_eq (st : Broker) (t : OrdType) (sym : String) (size : ℚ)
    (price : Option ℚ) (et : Option ExecType) (parent oco : Option Nat)
    (transmit : Bool) :
    Broker.place st t sym size price et parent oco transmit =
      Broker.transmitB
        ((Broker.mkOrder st t sym size price et parent oco transmit).2.ocoize
          (Broker.mkOrder st t sym size price et parent oco transmit).1)
        (Broker.mkOrder st t sym size price et parent oco transmit).1 := by
  cases t <;> rfl


/-- Erasure distributes over list append. -/
theorem aerase_append {k a : Type} [DecidableEq k] (l1 l2 : List (k × a))
    (key : k) : aerase (l1 ++ l2) key = aerase l1 key ++ aerase l2 key := by
  induction l1 with
  | nil => rfl
  | cons p l ih =>
    by_cases h : p.1 = key <;> simp [aerase, h, ih]

/-- Erasing the key just inserted removes it and any earlier binding. -/
theorem aerase_ainsert_self {k a : Type} [DecidableEq k] (l : List (k × a))
    (key : k) (v : a) : aerase (ainsert l key v) key = aerase l key := by
  rw [ainsert, aerase_append]
  have h1 : aerase (aerase l key) key = aerase l key :=
    aerase_of_alookup_none _ _ (alookup_aerase_self l key)
  have h2 : aerase [(key, v)] key = [] := by simp [aerase]
  rw [h1, h2, List.append_nil]

/-- Lookup after a defaultdict-append finds the extended list. -/
theorem alookup_alappend_self {k a : Type} [DecidableEq k]
    (l : List (k × List a)) (key : k) (v : a) :
    alookup (alappend l key v) key = some ((alookup l key).getD [] ++ [v]) :=
  alookup_ainsert_self _ _ _

/-- Ref allocated by the order constructor. -/
theorem mkOrder_ref (st : Broker) (t : OrdType) (sym : String) (size : ℚ)
    (price : Option ℚ) (et : Option ExecType) (parent oco : Option Nat)
    (transmit : Bool) :
    (Broker.mkOrder st t sym size price et parent oco transmit).1.ref =
      st.refbasis := rfl

/-- Parent stored by the order constructor. -/
theorem mkOrder_parent (st : Broker) (t : OrdType) (sym : String) (size : ℚ)
    (price : Option ℚ) (et : Option ExecType) (parent oco : Option Nat)
    (transmit : Bool) :
    (Broker.mkOrder st t sym size price et parent oco transmit).1.parent =
      parent := rfl

/-- OCO partner stored by the order constructor. -/
theorem mkOrder_oco (st : Broker) (t : OrdType) (sym : String) (size : ℚ)
    (price : Option ℚ) (et : Option ExecType) (parent oco : Option Nat)
    (transmit : Bool) :
    (Broker.mkOrder st t sym size price et parent oco transmit).1.oco =
      oco := rfl

/-- Transmit flag stored by the order constructor. -/
theorem mkOrder_transmit (st : Broker) (t : OrdType) (sym : String) (size : ℚ)
    (price : Option ℚ) (et : Option ExecType) (parent oco : Option Nat)
    (transmit : Bool) :
    (Broker.mkOrder st t sym size price et parent oco transmit).1.transmit =
      transmit := rfl

/-- Price stored by the order constructor. -/
theorem mkOrder_price (st : Broker) (t : OrdType) (sym : String) (size : ℚ)
    (price : Option ℚ) (et : Option ExecType) (parent oco : Option Nat)
    (transmit : Bool) :
    (Broker.mkOrder st t sym size price et parent oco transmit).1.price =
      price := rfl

/-- Execution type defaulting of the order constructor. -/
theorem mkOrder_exectype (st : Broker) (t : OrdType) (sym : String)
    (size : ℚ) (price : Option ℚ) (et : Option ExecType)
    (parent oco : Option Nat) (transmit : Bool) :
    (Broker.mkOrder st t sym size price et parent oco transmit).1.exectype =
      et.getD .Market := rfl

/-- Side stored by the order constructor. -/
theorem mkOrder_ordtype (st : Broker) (t : OrdType) (sym : String) (size : ℚ)
    (price : Option ℚ) (et : Option ExecType) (parent oco : Option Nat)
    (transmit : Bool) :
    (Broker.mkOrder st t sym size price et parent oco transmit).1.ordtype =
      t := rfl

/-- C5: the transmission gate.  Creating a non-transmitting primary, then a
non-transmitting stop child, then a transmitting take-profit child (each via
`buy`/`sell`, any sides) buffers the first two in the pending list with no
other side effect, and the final transmitting child registers all three
orders, creates the 3-member bracket group keyed by the primary's ref,
issues exactly one remote creation request carrying all three legs (the
stop/take prices and their refs for the comment tag), leaves the pending
list, notifications and cancellation queue as before, and returns the
take-profit order. -/
theorem c5_transmission_gate (st : Broker) (sym : String)
    (szP szS szT slp tpp : ℚ) (prP : Option ℚ) (etP : Option ExecType)
    (s1 s2 s3 : OrdType)
    (hpend : alookup st.opending st.refbasis = none)
    (hot : (ordertypeOf (etP.getD .Market) s1).isSome = true) :
    ∃ (o1 o2 o3 : Order) (st1 st2 st3 : Broker) (req : CreateReq),
      Broker.place st s1 sym szP prP etP none none false = .ok (st1, o1) ∧
      o1.ref = st.refbasis ∧ o1.transmit = false ∧
      st1 = ⟨st.store, st.orders, st.notifs,
        alappend st.opending st.refbasis o1, st.brackets, st.ocos, st.ocol,
        st.positions, st.refbasis + 1⟩ ∧
      Broker.place st1 s2 sym szS (some slp) (some .Stop) (some o1.ref) none
        false = .ok (st2, o2) ∧
      o2.ref = st.refbasis + 1 ∧ o2.parent = some o1.ref ∧
      o2.transmit = false ∧
      st2 = ⟨st.store, st.orders, st.notifs,
        alappend (alappend st.opending st.refbasis o1) st.refbasis o2,
        st.brackets, st.ocos, st.ocol, st.positions, st.refbasis + 2⟩ ∧
      Broker.place st2 s3 sym szT (some tpp) (some .Limit) (some o1.ref) none
        true = .ok (st3, o3) ∧
      o3.ref = st.refbasis + 2 ∧ o3.parent = some o1.ref ∧
      o3.price = some tpp ∧
      st3.store.q_ordercreate = st.store.q_ordercreate ++ [req] ∧
      st3.store.q_orderclose = st.store.q_orderclose ∧
      req.oref = o1.ref ∧ req.csl = some o2.ref ∧ req.ctp = some o3.ref ∧
      req.stoploss = some slp ∧ req.takeprofit = some tpp ∧
      alookup st3.orders o1.ref = some o1 ∧
      alookup st3.orders o2.ref = some o2 ∧
      alookup st3.orders o3.ref = some o3 ∧
      alookup st3.brackets o1.ref = some [o1.ref, o2.ref, o3.ref] ∧
      st3.notifs = st.notifs ∧ st3.opending = st.opending := by
  obtain ⟨otype, hotype⟩ := Option.isSome_iff_exists.mp hot
  have h1 : Broker.place st s1 sym szP prP etP none none false =
      .ok (⟨st.store, st.orders, st.notifs, alappend st.opending st.refbasis
          (Broker.mkOrder st s1 sym szP prP etP none none false).1,
        st.brackets, st.ocos, st.ocol, st.positions, st.refbasis + 1⟩,
        (Broker.mkOrder st s1 sym szP prP etP none none false).1) := by
    rw [place_eq, ocoize_of_oco_none _ _ rfl, transmitB_not_transmit _ _ rfl]
    rfl
  have h2 : Broker.place (⟨st.store, st.orders, st.notifs, alappend st.opending st.refbasis (st.mkOrder s1 sym szP prP etP none none false).1, st.brackets, st.ocos, st.ocol, st.positions, st.refbasis + 1⟩ : Broker) s2 sym szS (some slp) (some ExecType.Stop)
      (some st.refbasis) none false = .ok ((⟨st.store, st.orders, st.notifs, alappend (alappend st.opending st.refbasis (st.mkOrder s1 sym szP prP etP none none false).1) st.refbasis ((⟨st.store, st.orders, st.notifs, alappend st.opending st.refbasis (st.mkOrder s1 sym szP prP etP none none false).1, st.brackets, st.ocos, st.ocol, st.positions, st.refbasis + 1⟩ : Broker).mkOrder s2 sym szS (some slp) (some ExecType.Stop) (some st.refbasis) none false).1, st.brackets, st.ocos, st.ocol, st.positions, st.refbasis + 2⟩ : Broker), ((⟨st.store, st.orders, st.notifs, alappend st.opending st.refbasis (st.mkOrder s1 sym szP prP etP none none false).1, st.brackets, st.ocos, st.ocol, st.positions, st.refbasis + 1⟩ : Broker).mkOrder s2 sym szS (some slp) (some ExecType.Stop) (some st.refbasis) none false).1) := by
    rw [place_eq, ocoize_of_oco_none _ _ rfl, transmitB_not_transmit _ _ rfl]
    rfl
  have hne2 : st.refbasis + 2 ≠ st.refbasis := by omega
  have hq : (st.refbasis + 2 ≠ st.refbasis) = True := eq_true hne2
  have hlk : alookup (alappend (alappend st.opending st.refbasis (st.mkOrder s1 sym szP prP etP none none false).1)
      st.refbasis ((⟨st.store, st.orders, st.notifs, alappend st.opending st.refbasis (st.mkOrder s1 sym szP prP etP none none false).1, st.brackets, st.ocos, st.ocol, st.positions, st.refbasis + 1⟩ : Broker).mkOrder s2 sym szS (some slp) (some ExecType.Stop) (some st.refbasis) none false).1) st.refbasis = some [(st.mkOrder s1 sym szP prP etP none none false).1, ((⟨st.store, st.orders, st.notifs, alappend st.opending st.refbasis (st.mkOrder s1 sym szP prP etP none none false).1, st.brackets, st.ocos, st.ocol, st.positions, st.refbasis + 1⟩ : Broker).mkOrder s2 sym szS (some slp) (some ExecType.Stop) (some st.refbasis) none false).1] := by
    rw [alookup_alappend_self, alookup_alappend_self, hpend]
    rfl
  have h3 : Broker.place (⟨st.store, st.orders, st.notifs, alappend (alappend st.opending st.refbasis (st.mkOrder s1 sym szP prP etP none none false).1) st.refbasis ((⟨st.store, st.orders, st.notifs, alappend st.opending st.refbasis (st.mkOrder s1 sym szP prP etP none none false).1, st.brackets, st.ocos, st.ocol, st.positions, st.refbasis + 1⟩ : Broker).mkOrder s2 sym szS (some slp) (some ExecType.Stop) (some st.refbasis) none false).1, st.brackets, st.ocos, st.ocol, st.positions, st.refbasis + 2⟩ : Broker) s3 sym szT (some tpp) (some ExecType.Limit)
      (some st.refbasis) none true = .ok ((⟨(⟨st.store.notifs, st.store.q_ordercreate ++ [(⟨st.refbasis, otype, sym, |(st.mkOrder s1 sym szP prP etP none none false).1.size|, if (etP.getD ExecType.Market) ≠ ExecType.Market then prP else none, some slp, some tpp, st.refbasis, some (st.refbasis + 1), some (st.refbasis + 2), none⟩ : CreateReq)], st.store.q_orderclose, st.store.balance_reqs, st.store.s_orders, st.store.s_orders_type, st.store.s_ordersrev, st.store.datas⟩ : Store), ainsert (ainsert (ainsert st.orders st.refbasis (st.mkOrder s1 sym szP prP etP none none false).1) (st.refbasis + 1) ((⟨st.store, st.orders, st.notifs, alappend st.opending st.refbasis (st.mkOrder s1 sym szP prP etP none none false).1, st.brackets, st.ocos, st.ocol, st.positions, st.refbasis + 1⟩ : Broker).mkOrder s2 sym szS (some slp) (some ExecType.Stop) (some st.refbasis) none false).1) (st.refbasis + 2) ((⟨st.store, st.orders, st.notifs, alappend (alappend st.opending st.refbasis (st.mkOrder s1 sym szP prP etP none none false).1) st.refbasis ((⟨st.store, st.orders, st.notifs, alappend st.opending st.refbasis (st.mkOrder s1 sym szP prP etP none none false).1, st.brackets, st.ocos, st.ocol, st.positions, st.refbasis + 1⟩ : Broker).mkOrder s2 sym szS (some slp) (some ExecType.Stop) (some st.refbasis) none false).1, st.brackets, st.ocos, st.ocol, st.positions, st.refbasis + 2⟩ : Broker).mkOrder s3 sym szT (some tpp) (some ExecType.Limit) (some st.refbasis) none true).1, st.notifs, aerase (alappend (alappend st.opending st.refbasis (st.mkOrder s1 sym szP prP etP none none false).1) st.refbasis ((⟨st.store, st.orders, st.notifs, alappend st.opending st.refbasis (st.mkOrder s1 sym szP prP etP none none false).1, st.brackets, st.ocos, st.ocol, st.positions, st.refbasis + 1⟩ : Broker).mkOrder s2 sym szS (some slp) (some ExecType.Stop) (some st.refbasis) none false).1) st.refbasis, ainsert st.brackets st.refbasis [st.refbasis, st.refbasis + 1, st.refbasis + 2], st.ocos, st.ocol, st.positions, st.refbasis + 3⟩ : Broker), ((⟨st.store, st.orders, st.notifs, alappend (alappend st.opending st.refbasis (st.mkOrder s1 sym szP prP etP none none false).1) st.refbasis ((⟨st.store, st.orders, st.notifs, alappend st.opending st.refbasis (st.mkOrder s1 sym szP prP etP none none false).1, st.brackets, st.ocos, st.ocol, st.positions, st.refbasis + 1⟩ : Broker).mkOrder s2 sym szS (some slp) (some ExecType.Stop) (some st.refbasis) none false).1, st.brackets, st.ocos, st.ocol, st.positions, st.refbasis + 2⟩ : Broker).mkOrder s3 sym szT (some tpp) (some ExecType.Limit) (some st.refbasis) none true).1) := by
    rw [place_eq, ocoize_of_oco_none _ _ rfl]
    simp only [Broker.transmitB, mkOrder_transmit, mkOrder_ref,
      mkOrder_parent, mkOrder_snd, Option.getD_some, if_true, hq, hlk,
      order_create, mkOrder_exectype, mkOrder_ordtype, hotype]
    rfl
  have hd1 : st.refbasis ≠ st.refbasis + 2 := by omega
  have hd2 : st.refbasis ≠ st.refbasis + 1 := by omega
  have hd3 : st.refbasis + 1 ≠ st.refbasis + 2 := by omega
  refine ⟨(st.mkOrder s1 sym szP prP etP none none false).1, ((⟨st.store, st.orders, st.notifs, alappend st.opending st.refbasis (st.mkOrder s1 sym szP prP etP none none false).1, st.brackets, st.ocos, st.ocol, st.positions, st.refbasis + 1⟩ : Broker).mkOrder s2 sym szS (some slp) (some ExecType.Stop) (some st.refbasis) none false).1, ((⟨st.store, st.orders, st.notifs, alappend (alappend st.opending st.refbasis (st.mkOrder s1 sym szP prP etP none none false).1) st.refbasis ((⟨st.store, st.orders, st.notifs, alappend st.opending st.refbasis (st.mkOrder s1 sym szP prP etP none none false).1, st.brackets, st.ocos, st.ocol, st.positions, st.refbasis + 1⟩ : Broker).mkOrder s2 sym szS (some slp) (some ExecType.Stop) (some st.refbasis) none false).1, st.brackets, st.ocos, st.ocol, st.positions, st.refbasis + 2⟩ : Broker).mkOrder s3 sym szT (some tpp) (some ExecType.Limit) (some st.refbasis) none true).1, (⟨st.store, st.orders, st.notifs, alappend st.opending st.refbasis (st.mkOrder s1 sym szP prP etP none none false).1, st.brackets, st.ocos, st.ocol, st.positions, st.refbasis + 1⟩ : Broker), (⟨st.store, st.orders, st.notifs, alappend (alappend st.opending st.refbasis (st.mkOrder s1 sym szP prP etP none none false).1) st.refbasis ((⟨st.store, st.orders, st.notifs, alappend st.opending st.refbasis (st.mkOrder s1 sym szP prP etP none none false).1, st.brackets, st.ocos, st.ocol, st.positions, st.refbasis + 1⟩ : Broker).mkOrder s2 sym szS (some slp) (some ExecType.Stop) (some st.refbasis) none false).1, st.brackets, st.ocos, st.ocol, st.positions, st.refbasis + 2⟩ : Broker), (⟨(⟨st.store.notifs, st.store.q_ordercreate ++ [(⟨st.refbasis, otype, sym, |(st.mkOrder s1 sym szP prP etP none none false).1.size|, if (etP.getD ExecType.Market) ≠ ExecType.Market then prP else none, some slp, some tpp, st.refbasis, some (st.refbasis + 1), some (st.refbasis + 2), none⟩ : CreateReq)], st.store.q_orderclose, st.store.balance_reqs, st.store.s_orders, st.store.s_orders_type, st.store.s_ordersrev, st.store.datas⟩ : Store), ainsert (ainsert (ainsert st.orders st.refbasis (st.mkOrder s1 sym szP prP etP none none false).1) (st.refbasis + 1) ((⟨st.store, st.orders, st.notifs, alappend st.opending st.refbasis (st.mkOrder s1 sym szP prP etP none none false).1, st.brackets, st.ocos, st.ocol, st.positions, st.refbasis + 1⟩ : Broker).mkOrder s2 sym szS (some slp) (some ExecType.Stop) (some st.refbasis) none false).1) (st.refbasis + 2) ((⟨st.store, st.orders, st.notifs, alappend (alappend st.opending st.refbasis (st.mkOrder s1 sym szP prP etP none none false).1) st.refbasis ((⟨st.store, st.orders, st.notifs, alappend st.opending st.refbasis (st.mkOrder s1 sym szP prP etP none none false).1, st.brackets, st.ocos, st.ocol, st.positions, st.refbasis + 1⟩ : Broker).mkOrder s2 sym szS (some slp) (some ExecType.Stop) (some st.refbasis) none false).1, st.brackets, st.ocos, st.ocol, st.positions, st.refbasis + 2⟩ : Broker).mkOrder s3 sym szT (some tpp) (some ExecType.Limit) (some st.refbasis) none true).1, st.notifs, aerase (alappend (alappend st.opending st.refbasis (st.mkOrder s1 sym szP prP etP none none false).1) st.refbasis ((⟨st.store, st.orders, st.notifs, alappend st.opending st.refbasis (st.mkOrder s1 sym szP prP etP none none false).1, st.brackets, st.ocos, st.ocol, st.positions, st.refbasis + 1⟩ : Broker).mkOrder s2 sym szS (some slp) (some ExecType.Stop) (some st.refbasis) none false).1) st.refbasis, ainsert st.brackets st.refbasis [st.refbasis, st.refbasis + 1, st.refbasis + 2], st.ocos, st.ocol, st.positions, st.refbasis + 3⟩ : Broker), (⟨st.refbasis, otype, sym, |(st.mkOrder s1 sym szP prP etP none none false).1.size|, if (etP.getD ExecType.Market) ≠ ExecType.Market then prP else none, some slp, some tpp, st.refbasis, some (st.refbasis + 1), some (st.refbasis + 2), none⟩ : CreateReq),
    h1, rfl, rfl, rfl, h2, rfl, rfl, rfl, rfl, h3, rfl, rfl, rfl, rfl, rfl,
    rfl, rfl, rfl, rfl, rfl, ?_, ?_, ?_, ?_, rfl, ?_⟩
  · show alookup (ainsert (ainsert (ainsert st.orders st.refbasis (st.mkOrder s1 sym szP prP etP none none false).1)
      (st.refbasis + 1) ((⟨st.store, st.orders, st.notifs, alappend st.opending st.refbasis (st.mkOrder s1 sym szP prP etP none none false).1, st.brackets, st.ocos, st.ocol, st.positions, st.refbasis + 1⟩ : Broker).mkOrder s2 sym szS (some slp) (some ExecType.Stop) (some st.refbasis) none false).1) (st.refbasis + 2) ((⟨st.store, st.orders, st.notifs, alappend (alappend st.opending st.refbasis (st.mkOrder s1 sym szP prP etP none none false).1) st.refbasis ((⟨st.store, st.orders, st.notifs, alappend st.opending st.refbasis (st.mkOrder s1 sym szP prP etP none none false).1, st.brackets, st.ocos, st.ocol, st.positions, st.refbasis + 1⟩ : Broker).mkOrder s2 sym szS (some slp) (some ExecType.Stop) (some st.refbasis) none false).1, st.brackets, st.ocos, st.ocol, st.positions, st.refbasis + 2⟩ : Broker).mkOrder s3 sym szT (some tpp) (some ExecType.Limit) (some st.refbasis) none true).1) st.refbasis =
      some (st.mkOrder s1 sym szP prP etP none none false).1
    rw [alookup_ainsert_ne _ _ hd1, alookup_ainsert_ne _ _ hd2,
      alookup_ainsert_self]
  · show alookup (ainsert (ainsert (ainsert st.orders st.refbasis (st.mkOrder s1 sym szP prP etP none none false).1)
      (st.refbasis + 1) ((⟨st.store, st.orders, st.notifs, alappend st.opending st.refbasis (st.mkOrder s1 sym szP prP etP none none false).1, st.brackets, st.ocos, st.ocol, st.positions, st.refbasis + 1⟩ : Broker).mkOrder s2 sym szS (some slp) (some ExecType.Stop) (some st.refbasis) none false).1) (st.refbasis + 2) ((⟨st.store, st.orders, st.notifs, alappend (alappend st.opending st.refbasis (st.mkOrder s1 sym szP prP etP none none false).1) st.refbasis ((⟨st.store, st.orders, st.notifs, alappend st.opending st.refbasis (st.mkOrder s1 sym szP prP etP none none false).1, st.brackets, st.ocos, st.ocol, st.positions, st.refbasis + 1⟩ : Broker).mkOrder s2 sym szS (some slp) (some ExecType.Stop) (some st.refbasis) none false).1, st.brackets, st.ocos, st.ocol, st.positions, st.refbasis + 2⟩ : Broker).mkOrder s3 sym szT (some tpp) (some ExecType.Limit) (some st.refbasis) none true).1) (st.refbasis + 1) =
      some ((⟨st.store, st.orders, st.notifs, alappend st.opending st.refbasis (st.mkOrder s1 sym szP prP etP none none false).1, st.brackets, st.ocos, st.ocol, st.positions, st.refbasis + 1⟩ : Broker).mkOrder s2 sym szS (some slp) (some ExecType.Stop) (some st.refbasis) none false).1
    rw [alookup_ainsert_ne _ _ hd3, alookup_ainsert_self]
  · show alookup (ainsert (ainsert (ainsert st.orders st.refbasis (st.mkOrder s1 sym szP prP etP none none false).1)
      (st.refbasis + 1) ((⟨st.store, st.orders, st.notifs, alappend st.opending st.refbasis (st.mkOrder s1 sym szP prP etP none none false).1, st.brackets, st.ocos, st.ocol, st.positions, st.refbasis + 1⟩ : Broker).mkOrder s2 sym szS (some slp) (some ExecType.Stop) (some st.refbasis) none false).1) (st.refbasis + 2) ((⟨st.store, st.orders, st.notifs, alappend (alappend st.opending st.refbasis (st.mkOrder s1 sym szP prP etP none none false).1) st.refbasis ((⟨st.store, st.orders, st.notifs, alappend st.opending st.refbasis (st.mkOrder s1 sym szP prP etP none none false).1, st.brackets, st.ocos, st.ocol, st.positions, st.refbasis + 1⟩ : Broker).mkOrder s2 sym szS (some slp) (some ExecType.Stop) (some st.refbasis) none false).1, st.brackets, st.ocos, st.ocol, st.positions, st.refbasis + 2⟩ : Broker).mkOrder s3 sym szT (some tpp) (some ExecType.Limit) (some st.refbasis) none true).1) (st.refbasis + 2) =
      some ((⟨st.store, st.orders, st.notifs, alappend (alappend st.opending st.refbasis (st.mkOrder s1 sym szP prP etP none none false).1) st.refbasis ((⟨st.store, st.orders, st.notifs, alappend st.opending st.refbasis (st.mkOrder s1 sym szP prP etP none none false).1, st.brackets, st.ocos, st.ocol, st.positions, st.refbasis + 1⟩ : Broker).mkOrder s2 sym szS (some slp) (some ExecType.Stop) (some st.refbasis) none false).1, st.brackets, st.ocos, st.ocol, st.positions, st.refbasis + 2⟩ : Broker).mkOrder s3 sym szT (some tpp) (some ExecType.Limit) (some st.refbasis) none true).1
    exact alookup_ainsert_self _ _ _
  · show alookup (ainsert st.brackets st.refbasis
      [st.refbasis, st.refbasis + 1, st.refbasis + 2]) st.refbasis =
      some [st.refbasis, st.refbasis + 1, st.refbasis + 2]
    exact alookup_ainsert_self _ _ _
  · show aerase (alappend (alappend st.opending st.refbasis (st.mkOrder s1 sym szP prP etP none none false).1)
      st.refbasis ((⟨st.store, st.orders, st.notifs, alappend st.opending st.refbasis (st.mkOrder s1 sym szP prP etP none none false).1, st.brackets, st.ocos, st.ocol, st.positions, st.refbasis + 1⟩ : Broker).mkOrder s2 sym szS (some slp) (some ExecType.Stop) (some st.refbasis) none false).1) st.refbasis = st.opending
    simp only [alappend]
    rw [aerase_ainsert_self, aerase_ainsert_self,
      aerase_of_alookup_none _ _ hpend]


/-- Witness for C5 at a concrete input: a market buy of 5 with stop 90 and
take-profit 110 on a fresh broker. -/
theorem c5_witness :
    alookup ({} : Broker).opending ({} : Broker).refbasis = none ∧
    (ordertypeOf ((none : Option ExecType).getD .Market) .Buy).isSome =
      true ∧
    (
    ∃ (o1 o2 o3 : Order) (st1 st2 st3 : Broker) (req : CreateReq),
      Broker.place {} .Buy "EU" 5 none none none none false = .ok (st1, o1) ∧
      o1.ref = ({} : Broker).refbasis ∧ o1.transmit = false ∧
      st1 = ⟨({} : Broker).store, ({} : Broker).orders, ({} : Broker).notifs,
        alappend ({} : Broker).opending ({} : Broker).refbasis o1, ({} : Broker).brackets, ({} : Broker).ocos, ({} : Broker).ocol,
        ({} : Broker).positions, ({} : Broker).refbasis + 1⟩ ∧
      Broker.place st1 .Sell "EU" 5 (some 90) (some .Stop) (some o1.ref) none
        false = .ok (st2, o2) ∧
      o2.ref = ({} : Broker).refbasis + 1 ∧ o2.parent = some o1.ref ∧
      o2.transmit = false ∧
      st2 = ⟨({} : Broker).store, ({} : Broker).orders, ({} : Broker).notifs,
        alappend (alappend ({} : Broker).opending ({} : Broker).refbasis o1) ({} : Broker).refbasis o2,
        ({} : Broker).brackets, ({} : Broker).ocos, ({} : Broker).ocol, ({} : Broker).positions, ({} : Broker).refbasis + 2⟩ ∧
      Broker.place st2 .Sell "EU" 5 (some 110) (some .Limit) (some o1.ref) none
        true = .ok (st3, o3) ∧
      o3.ref = ({} : Broker).refbasis + 2 ∧ o3.parent = some o1.ref ∧
      o3.price = some (110 : ℚ) ∧
      st3.store.q_ordercreate = ({} : Broker).store.q_ordercreate ++ [req] ∧
      st3.store.q_orderclose = ({} : Broker).store.q_orderclose ∧
      req.oref = o1.ref ∧ req.csl = some o2.ref ∧ req.ctp = some o3.ref ∧
      req.stoploss = some (90 : ℚ) ∧ req.takeprofit = some (110 : ℚ) ∧
      alookup st3.orders o1.ref = some o1 ∧
      alookup st3.orders o2.ref = some o2 ∧
      alookup st3.orders o3.ref = some o3 ∧
      alookup st3.brackets o1.ref = some [o1.ref, o2.ref, o3.ref] ∧
      st3.notifs = ({} : Broker).notifs ∧ st3.opending = ({} : Broker).opending) :=
  ⟨rfl, rfl, c5_transmission_gate {} "EU" 5 5 5 90 110 none none .Buy .Sell
    .Sell rfl rfl⟩

/-- Fixture for C6: a freshly started broker with a data feed registered for
the snapshot's symbol. -/
def c6start (sym : String) : Broker := { store := { datas := [sym] } }

set_option maxHeartbeats 3000000 in
/-- C6: reconciliation of one remote buy position with volume `v`, open price
`p`, positive protective levels and comment tag `ref=5|sl=6|tp=7`, with a
data feed registered for its symbol: `rebuild_positions` produces the parent
order under local id 5 (a Buy, full size `v`, ending Completed), the stop leg
under id 6 (price `sl`, parented to 5) and the take-profit leg under id 7
(price `tp`, parented to 5), leaves the 2-member bracket group `[6, 7]` in
the tracker after the parent is synthetically completed, and leaves the
position ledger for the symbol at signed size `+v` and price `p`. -/
theorem c6_rebuild_positions (sym : String) (v p sl tp : ℚ) (oid : Nat)
    (hv : 0 < v) (hsl : 0 < sl) (htp : 0 < tp) :
    ∃ st', Broker.rebuildPositions 9 (c6start sym)
        [⟨oid, sym, v, true, p, sl, tp, [("ref", 5), ("sl", 6), ("tp", 7)]⟩] =
        .ok st' ∧
      (alookup st'.orders 5).map Order.status = some .Completed ∧
      (alookup st'.orders 5).map Order.ordtype = some .Buy ∧
      (alookup st'.orders 5).map Order.size = some v ∧
      (alookup st'.orders 5).map Order.parent = some none ∧
      (alookup st'.orders 6).map Order.exectype = some .Stop ∧
      (alookup st'.orders 6).map Order.parent = some (some 5) ∧
      (alookup st'.orders 6).map Order.price = some (some sl) ∧
      (alookup st'.orders 6).map Order.ordtype = some .Sell ∧
      (alookup st'.orders 7).map Order.exectype = some .Limit ∧
      (alookup st'.orders 7).map Order.parent = some (some 5) ∧
      (alookup st'.orders 7).map Order.price = some (some tp) ∧
      (alookup st'.orders 7).map Order.ordtype = some .Sell ∧
      alookup st'.brackets 5 = some [6, 7] ∧
      alookup st'.positions sym = some ⟨v, p⟩ := by
  have hv0 : (v = 0) = False := eq_false (ne_of_gt hv)
  have hslT : (sl > 0) = True := eq_true hsl
  have htpT : (tp > 0) = True := eq_true htp
  have h00 : ((0 : ℚ) = 0) = True := by norm_num
  have hcon : (([sym].contains sym) = true) := by simp
  have hs1 : (("ref" : String) = "ref") = True := by decide
  have hs2 : (("ref" : String) = "sl") = False := by decide
  have hs3 : (("sl" : String) = "sl") = True := by decide
  have hs4 : (("ref" : String) = "tp") = False := by decide
  have hs5 : (("sl" : String) = "tp") = False := by decide
  have hs6 : (("tp" : String) = "tp") = True := by decide
  have hc1 : (OrdStatus.Created = OrdStatus.Submitted) = False := by decide
  have hc2 : (OrdStatus.Submitted = OrdStatus.Canceled) = False := by decide
  have hb : ((false : Bool) = true) = False := by decide
  have ha1 : (decide (OrdStatus.Completed = OrdStatus.Created ∨
      OrdStatus.Completed = OrdStatus.Submitted ∨
      OrdStatus.Completed = OrdStatus.Accepted ∨
      OrdStatus.Completed = OrdStatus.PartFilled)) = false := by decide
  have hn1 : ((5 : Nat) = 5) = True := by decide
  have hn2 : ((5 : Nat) = 6) = False := by decide
  have hn3 : ((5 : Nat) = 7) = False := by decide
  have hn4 : ((6 : Nat) = 5) = False := by decide
  have hn5 : ((6 : Nat) = 6) = True := by decide
  have hn6 : ((6 : Nat) = 7) = False := by decide
  have hn7 : ((7 : Nat) = 5) = False := by decide
  have hn8 : ((7 : Nat) = 6) = False := by decide
  have hn9 : ((7 : Nat) = 7) = True := by decide
  have hn10 : ((5 : Nat) ≠ 5) = False := by decide
  have hn11 : ((6 : Nat) ≠ 5) = True := by decide
  have hn12 : ((7 : Nat) ≠ 5) = True := by decide
  simp only [Broker.rebuildPositions, List.foldlM, Broker.rebuildOne,
    c6start, alookup, aerase, ainsert, alappend, List.append_nil,
    List.nil_append, List.cons_append, Option.getD_none, Option.getD_some,
    hcon, if_true, hslT, htpT, h00, hv0, Broker.mkOrder, Broker.setOrder,
    Broker.notify, Broker.rebuildOrderStore, ordertypeOf, Broker.submitB,
    Broker.submitCore, Broker.bracketize, Broker.cancelCore.bracketizeCore,
    Broker.mapOrderAt, Order.submit, Order.activate, Order.completed,
    Order.execute, Order.alive, Broker.ococheck, Broker.ocoCancelAll,
    except_bind_ok, except_pure_eq, hs1, hs2, hs3, hs4, hs5, hs6, hc1, hc2,
    ite_true, ite_false, if_true, if_false, hb, ha1,
    hn1, hn2, hn3, hn4, hn5, hn6, hn7, hn8, hn9, hn10, hn11, hn12]
  refine ⟨_, rfl, ?_, ?_, ?_, ?_, ?_, ?_, ?_, ?_, ?_, ?_, ?_, ?_, ?_, ?_⟩
  all_goals first
    | rfl
    | simp [alookup]


/-- Witness for C6 at a concrete input: one buy position of volume 2 at open
price 100 with stop 90 and take-profit 110. -/
theorem c6_witness :
    (0 : ℚ) < 2 ∧ (0 : ℚ) < 90 ∧ (0 : ℚ) < 110 ∧
    (
    ∃ st', Broker.rebuildPositions 9 (c6start "EU")
        [⟨77, "EU", 2, true, 100, 90, 110, [("ref", 5), ("sl", 6), ("tp", 7)]⟩] =
        .ok st' ∧
      (alookup st'.orders 5).map Order.status = some .Completed ∧
      (alookup st'.orders 5).map Order.ordtype = some .Buy ∧
      (alookup st'.orders 5).map Order.size = some (2 : ℚ) ∧
      (alookup st'.orders 5).map Order.parent = some none ∧
      (alookup st'.orders 6).map Order.exectype = some .Stop ∧
      (alookup st'.orders 6).map Order.parent = some (some 5) ∧
      (alookup st'.orders 6).map Order.price = some (some (90 : ℚ)) ∧
      (alookup st'.orders 6).map Order.ordtype = some .Sell ∧
      (alookup st'.orders 7).map Order.exectype = some .Limit ∧
      (alookup st'.orders 7).map Order.parent = some (some 5) ∧
      (alookup st'.orders 7).map Order.price = some (some (110 : ℚ)) ∧
      (alookup st'.orders 7).map Order.ordtype = some .Sell ∧
      alookup st'.brackets 5 = some [6, 7] ∧
      alookup st'.positions "EU" = some ⟨2, 100⟩) :=
  ⟨by norm_num, by norm_num, by norm_num,
    c6_rebuild_positions "EU" 2 100 90 110 77 (by norm_num) (by norm_num)
      (by norm_num)⟩

end MT5
